import Mathlib

/-!
# TpfaInterface (dune/porsol/mimetic/TpfaInterface.hpp)

A shallow embedding of `Dune::TpfaInterface`: `init`, `solve`, and the
`FlowSolution` accessors.

Conventions of the embedding.

* `double` is the exact rational field `ℚ`; rounding, infinities and NaN are
  outside the model.  `int` indices and counts are `Nat`.
* `THROW(...)` is an `Except` result; one constructor of `Error` per
  `THROW` site of the file.
* The template parameters (`GridInterface`, `RockInterface`, `BCInterface`,
  `FluidInterface`) are records of the operations the file calls on them.
* The two stateful collaborators `psolver_` (`TPFAPressureSolver`) and
  `linsolver_` (`LinearSolverISTL`) are records of operations over an
  arbitrary state type.  Every invocation of a collaborator is written to the
  `calls` list of the outcome, in program order.
-/

set_option autoImplicit false

namespace Dune

/-! ## Boundary conditions -/

/-- Modelled from the spec: `FlowBC` (dune/porsol/common/BoundaryConditions.hpp
is not part of the sources).  The spec describes a tagged variant
Dirichlet(pressure value), Neumann(flux value), Periodic. -/
inductive FlowBC where
  | dirichlet (pressure : ℚ)
  | neumann (outflux : ℚ)
  | periodic (pressureDifference : ℚ)
  deriving DecidableEq, Repr

namespace FlowBC

def isDirichlet : FlowBC → Bool
  | dirichlet _ => true
  | _ => false

def isNeumann : FlowBC → Bool
  | neumann _ => true
  | _ => false

def isPeriodic : FlowBC → Bool
  | periodic _ => true
  | _ => false

/-- The prescribed pressure; only queried on a Dirichlet condition. -/
def pressure : FlowBC → ℚ
  | dirichlet p => p
  | _ => 0

/-- The prescribed outward flux; only queried on a Neumann condition. -/
def outflux : FlowBC → ℚ
  | neumann q => q
  | _ => 0

end FlowBC

/-- The `BCInterface` template parameter: `size()` and `flowCond(i)`. -/
structure BCInterface where
  size : Nat
  flowCond : Nat → FlowBC

/-- Boundary-type tags of the assembly delegate,
`TPFAPressureSolver::FlowBCTypes`. -/
inductive FlowBCTypes where
  | FBC_UNSET
  | FBC_PRESSURE
  | FBC_FLUX
  deriving DecidableEq, Repr

/-! ## Grid, rock and fluid interfaces -/

/-- The underlying grid `g.grid()`: the file only asks it for `boundaryId(face)`. -/
structure Grid where
  boundaryId : Nat → Nat

/-- The `GridInterface` template parameter: `grid()` and `numberOfFaces()`. -/
structure GridInterface where
  grid : Grid
  numberOfFaces : Nat

/-- The `RockInterface` template parameter.  `init` takes the address of
`r.permeability(0)(0,0)`; `permeabilityData` is the tensor storage found there. -/
structure RockInterface where
  permeabilityData : List ℚ

/-- The `FluidInterface` template parameter, with `NumberOfPhases == 2`:
`phaseMobilities(cell, sat, mob)` and `phaseDensities(cell, rho)` fill a
two-element array each. -/
structure FluidInterface where
  phaseMobilities : Nat → ℚ → ℚ × ℚ
  phaseDensities : Nat → ℚ × ℚ

/-! ## Linear system and solver collaborators -/

/-- The type `TPFAPressureSolver::LinearSystem`: the CSR descriptor filled by
`psolver_.linearSystem(s)`. -/
structure LinearSystem where
  n : Nat
  nnz : Nat
  ia : List Nat
  ja : List Nat
  sa : List ℚ
  b : List ℚ
  x : List ℚ
  deriving DecidableEq, Repr

/-- The type `LinearSolverISTL::LinearSolverResults`. -/
structure LinearSolverResults where
  converged : Bool
  iterations : Int
  reduction : ℚ
  deriving DecidableEq, Repr

/-- A value stored in the `parameter::ParameterGroup` handed to
`linsolver_.init`; the `lexical_cast` to a string is not modelled. -/
inductive ParamValue where
  | real (v : ℚ)
  | int (v : Int)
  deriving DecidableEq, Repr

/-- The `parameter::ParameterGroup` built by `solve`: name/value pairs in
insertion order. -/
abbrev ParameterGroup := List (String × ParamValue)

/-- The operations `TpfaInterface` calls on `psolver_`, over the delegate's
state type `PS`.  `storeSolution` is the write of the linear solver's solution
through the pointer `s.x`, which points into the delegate's storage. -/
structure TPFAPressureSolver (PS : Type) where
  init : PS → Grid → List ℚ → List ℚ → PS
  assemble : PS → List ℚ → List ℚ → List ℚ → List FlowBCTypes → List ℚ → PS
  linearSystem : PS → LinearSystem
  storeSolution : PS → List ℚ → PS
  computePressuresAndFluxes : PS → List ℚ × List ℚ
  faceFluxToCellFlux : PS → List ℚ → List ℚ
  numCellFaces : PS → List Nat

/-- The operations `TpfaInterface` calls on `linsolver_`, over the solver's
state type `LS`.  `solve` returns the new solver state, the diagnostics and
the solution vector written to `s.x`. -/
structure LinearSolverISTL (LS : Type) where
  init : LS → ParameterGroup → LS
  solve : LS → LinearSystem → LS × LinearSolverResults × List ℚ

/-- One invocation of a collaborator method, with the arguments passed (and,
for the linear solver, the diagnostics it returned). -/
inductive Call where
  | psolverInit (g : Grid) (perm : List ℚ) (grav : List ℚ)
  | assemble (src totmob omega : List ℚ) (bctypes : List FlowBCTypes) (bcvalues : List ℚ)
  | linearSystem
  | linsolverInit (params : ParameterGroup)
  | linsolverSolve (s : LinearSystem) (res : LinearSolverResults)
  | computePressuresAndFluxes
  | faceFluxToCellFlux (face_flux : List ℚ)
  | numCellFaces

/-- The `THROW` sites of the file. -/
inductive Error where
  /-- Thrown by `init`: "Periodic BCs are not handled yet by ifsh." -/
  | periodicNotHandled
  /-- Thrown by `solve`: "Nonzero Neumann conditions not yet properly implemented
  (signs must be fixed)" -/
  | nonzeroNeumann
  /-- Thrown by `solve`: "Unhandled boundary condition type." -/
  | unhandledBoundaryCondition
  /-- Thrown by `solve`: "Linear solver failed to converge in N iterations. Residual
  reduction achieved is R" -/
  | linearSolverFailed (iterations : Int) (reduction : ℚ)
  /-- Outcome of `solve` on an object whose `pgrid_` is still null: the dereference is
  undefined in the source; the model stops with this outcome. -/
  | nullGrid
  deriving DecidableEq, Repr

/-! ## SparseTable and FlowSolution -/

/-- Modelled from the spec: `SparseTable` (dune/common/SparseTable.hpp is not
part of the sources).  A ragged array: the flat data and the row start
offsets, row `r` being the slice between consecutive offsets. -/
structure SparseTable where
  data_ : List ℚ
  row_start_ : List Nat
  deriving DecidableEq, Repr

/-- Running sums of the row sizes, starting after `acc`. -/
def cumsum : Nat → List Nat → List Nat
  | _, [] => []
  | acc, x :: xs => (acc + x) :: cumsum (acc + x) xs

namespace SparseTable

def clear (_t : SparseTable) : SparseTable :=
  { data_ := [], row_start_ := [] }

/-- Modelled from the spec: `assign(data_beg, data_end, rowsize_beg,
rowsize_end)` stores the flat data and turns the row sizes into row starts. -/
def assign (_t : SparseTable) (data : List ℚ) (rowsizes : List Nat) : SparseTable :=
  { data_ := data, row_start_ := 0 :: cumsum 0 rowsizes }

/-- Number of rows. -/
def size (t : SparseTable) : Nat := t.row_start_.length - 1

/-- Modelled from the spec: the number of entries of row `r`, the distance
between its row start and the next; `none` for a row the table does not have. -/
def rowSize (t : SparseTable) (r : Nat) : Option Nat :=
  match t.row_start_[r]?, t.row_start_[r + 1]? with
  | some a, some b => some (b - a)
  | _, _ => none

/-- Modelled from the spec: `operator[](row)`, the entries of one row in
order; `none` for a row the table does not have. -/
def row (t : SparseTable) (r : Nat) : Option (List ℚ) :=
  match t.row_start_[r]?, t.row_start_[r + 1]? with
  | some a, some b => some ((t.data_.drop a).take (b - a))
  | _, _ => none

end SparseTable

/-- The class `TpfaInterface::FlowSolution`. -/
structure FlowSolution where
  pressure_ : List ℚ
  outflux_ : SparseTable
  deriving DecidableEq, Repr

namespace FlowSolution

/-- The accessor `pressure(c)`, given `c->index()`. -/
def pressure (fs : FlowSolution) (index : Nat) : Option ℚ :=
  fs.pressure_[index]?

/-- The accessor `outflux(f)`, given `f->cellIndex()` and `f->localIndex()`. -/
def outflux (fs : FlowSolution) (cellIndex localIndex : Nat) : Option ℚ :=
  match fs.outflux_.row cellIndex with
  | some r => r[localIndex]?
  | none => none

def clear (fs : FlowSolution) : FlowSolution :=
  { pressure_ := [], outflux_ := fs.outflux_.clear }

end FlowSolution

/-! ## TpfaInterface -/

/-- The data members of `TpfaInterface`. -/
structure TpfaInterface (PS LS : Type) where
  pgrid_ : Option GridInterface
  psolver_ : PS
  linsolver_ : LS
  flow_solution_ : FlowSolution

/-- What one call of `init` or `solve` leaves behind: the result (normal
return or the error thrown), the instance afterwards, the collaborator calls
made in program order, and the `MESSAGE` notices printed. -/
structure Outcome (PS LS : Type) where
  result : Except Error Unit
  state : TpfaInterface PS LS
  calls : List Call
  notices : List String

/-- The loop of `init` over `i = 0 .. bc.size()-1`; `rem` conditions are left,
starting at `i`.  Returns `true` when a periodic condition is met. -/
def initLoop (bc : BCInterface) : Nat → Nat → Bool
  | 0, _ => false
  | rem + 1, i => if (bc.flowCond i).isPeriodic then true else initLoop bc rem (i + 1)

/-- The method `TpfaInterface::init`. -/
def init {PS LS : Type} (P : TPFAPressureSolver PS)
    (g : GridInterface) (r : RockInterface) (grav : List ℚ) (bc : BCInterface)
    (self : TpfaInterface PS LS) : Outcome PS LS :=
  let self := { self with pgrid_ := some g }
  let perm := r.permeabilityData
  if initLoop bc bc.size 0 then
    { result := .error .periodicNotHandled, state := self, calls := [], notices := [] }
  else
    { result := .ok (),
      state := { self with psolver_ := P.init self.psolver_ g.grid perm grav },
      calls := [.psolverInit g.grid perm grav],
      notices := [] }

/-- The cell loop of `solve` ("Build totmob and omega"): `rem` cells are left,
starting at `cell`. -/
def cellLoop (fl : FluidInterface) (sat : List ℚ) :
    Nat → Nat → List ℚ → List ℚ → List ℚ × List ℚ
  | 0, _, totmob, omega => (totmob, omega)
  | rem + 1, cell, totmob, omega =>
    let mob := fl.phaseMobilities cell (sat.getD cell 0)
    let rho := fl.phaseDensities cell
    let totmob := totmob.set cell (mob.1 + mob.2)
    let f_w := mob.1 / (mob.1 + mob.2)
    let omega := omega.set cell (rho.1 * f_w + rho.2 * (1 - f_w))
    cellLoop fl sat rem (cell + 1) totmob omega

/-- The face loop of `solve` ("Build bctypes and bcvalues"): `rem` faces are
left, starting at `face`. -/
def faceLoop (g : GridInterface) (bc : BCInterface) :
    Nat → Nat → List FlowBCTypes → List ℚ → Except Error (List FlowBCTypes × List ℚ)
  | 0, _, bctypes, bcvalues => .ok (bctypes, bcvalues)
  | rem + 1, face, bctypes, bcvalues =>
    let bid := g.grid.boundaryId face
    let face_bc := bc.flowCond bid
    if face_bc.isDirichlet then
      let bctypes := bctypes.set face .FBC_PRESSURE
      let bcvalues := bcvalues.set face face_bc.pressure
      faceLoop g bc rem (face + 1) bctypes bcvalues
    else if face_bc.isNeumann then
      let bctypes := bctypes.set face .FBC_FLUX
      let bcvalues := bcvalues.set face face_bc.outflux
      if bcvalues.getD face 0 ≠ 0 then
        .error .nonzeroNeumann
      else
        faceLoop g bc rem (face + 1) bctypes bcvalues
    else
      .error .unhandledBoundaryCondition

/-- The method `TpfaInterface::solve`. -/
def solve {PS LS : Type} (P : TPFAPressureSolver PS) (L : LinearSolverISTL LS)
    (fl : FluidInterface) (sat : List ℚ) (bc : BCInterface) (src : List ℚ)
    (residual_tolerance : ℚ) (linsolver_verbosity : Int) (linsolver_type : Int)
    (same_matrix : Bool) (self : TpfaInterface PS LS) : Outcome PS LS :=
  let notices :=
    if same_matrix then ["Requested reuse of preconditioner, not implemented so far."] else []
  -- Build totmob and omega.
  let num_cells := sat.length
  let (totmob, omega) :=
    cellLoop fl sat num_cells 0 (List.replicate num_cells 1) (List.replicate num_cells 0)
  -- Build bctypes and bcvalues.
  match self.pgrid_ with
  | none => { result := .error .nullGrid, state := self, calls := [], notices := notices }
  | some g =>
    let num_faces := g.numberOfFaces
    match faceLoop g bc num_faces 0 (List.replicate num_faces .FBC_UNSET)
        (List.replicate num_faces 0) with
    | .error e => { result := .error e, state := self, calls := [], notices := notices }
    | .ok (bctypes, bcvalues) =>
      -- Assemble system matrix and rhs.
      let ps := P.assemble self.psolver_ src totmob omega bctypes bcvalues
      -- Solve system.
      let s := P.linearSystem ps
      let params : ParameterGroup :=
        [("linsolver_tolerance", .real residual_tolerance),
         ("linsolver_verbosity", .int linsolver_verbosity),
         ("linsolver_type", .int linsolver_type)]
      let ls := L.init self.linsolver_ params
      let (ls, res, x) := L.solve ls s
      let ps := P.storeSolution ps x
      let calls : List Call :=
        [.assemble src totmob omega bctypes bcvalues, .linearSystem,
         .linsolverInit params, .linsolverSolve s res]
      if !res.converged then
        { result := .error (.linearSolverFailed res.iterations res.reduction),
          state := { self with psolver_ := ps, linsolver_ := ls },
          calls := calls, notices := notices }
      else
        let flow_solution := self.flow_solution_.clear
        let (pressure, face_flux) := P.computePressuresAndFluxes ps
        let flow_solution := { flow_solution with pressure_ := pressure }
        let cell_flux := P.faceFluxToCellFlux ps face_flux
        let ncf := P.numCellFaces ps
        let flow_solution :=
          { flow_solution with outflux_ := flow_solution.outflux_.assign cell_flux ncf }
        { result := .ok (),
          state := { self with psolver_ := ps, linsolver_ := ls,
                               flow_solution_ := flow_solution },
          calls := calls ++ [.computePressuresAndFluxes, .faceFluxToCellFlux face_flux,
                             .numCellFaces],
          notices := notices }

/-- The method `TpfaInterface::getSolution`. -/
def getSolution {PS LS : Type} (self : TpfaInterface PS LS) : FlowSolution :=
  self.flow_solution_

/-! ## Auxiliary definitions -/

/-- The total mobility written for one cell. -/
def cellTotmob (fl : FluidInterface) (sat : List ℚ) (cell : Nat) : ℚ :=
  (fl.phaseMobilities cell (sat.getD cell 0)).1 + (fl.phaseMobilities cell (sat.getD cell 0)).2

/-- The omega written for one cell. -/
def cellOmega (fl : FluidInterface) (sat : List ℚ) (cell : Nat) : ℚ :=
  let mob := fl.phaseMobilities cell (sat.getD cell 0)
  let rho := fl.phaseDensities cell
  rho.1 * (mob.1 / (mob.1 + mob.2)) + rho.2 * (1 - mob.1 / (mob.1 + mob.2))

/-- The condition the face loop reads for a face:
`bc.flowCond(pgrid_->grid().boundaryId(face))`. -/
def faceCond (g : GridInterface) (bc : BCInterface) (face : Nat) : FlowBC :=
  bc.flowCond (g.grid.boundaryId face)

/-- A face the loop passes: Dirichlet, or Neumann with zero outflux. -/
def faceOK (g : GridInterface) (bc : BCInterface) (face : Nat) : Prop :=
  (faceCond g bc face).isDirichlet = true ∨
    ((faceCond g bc face).isNeumann = true ∧ (faceCond g bc face).outflux = 0)

instance (g : GridInterface) (bc : BCInterface) (face : Nat) : Decidable (faceOK g bc face) := by
  unfold faceOK; exact inferInstance

/-- The tag the loop writes for a face it passes. -/
def faceTag (c : FlowBC) : FlowBCTypes :=
  if c.isDirichlet then .FBC_PRESSURE else .FBC_FLUX

/-- The value the loop writes for a face it passes. -/
def faceValue (c : FlowBC) : ℚ :=
  if c.isDirichlet then c.pressure else c.outflux

/-- The error the loop throws at a face it does not pass. -/
def faceError (c : FlowBC) : Error :=
  if c.isNeumann then .nonzeroNeumann else .unhandledBoundaryCondition

/-- The notices `solve` prints. -/
def solveNotices (same_matrix : Bool) : List String :=
  if same_matrix then ["Requested reuse of preconditioner, not implemented so far."] else []

/-- The coefficient arrays `solve` builds: `(totmob, omega)`. -/
def solveCoefficients (fl : FluidInterface) (sat : List ℚ) : List ℚ × List ℚ :=
  cellLoop fl sat sat.length 0 (List.replicate sat.length 1) (List.replicate sat.length 0)

/-- The boundary arrays `solve` builds, or the error of the face loop. -/
def solveBoundary (g : GridInterface) (bc : BCInterface) :
    Except Error (List FlowBCTypes × List ℚ) :=
  faceLoop g bc g.numberOfFaces 0 (List.replicate g.numberOfFaces .FBC_UNSET)
    (List.replicate g.numberOfFaces 0)

/-- The parameter group `solve` hands to `linsolver_.init`. -/
def solveParams (residual_tolerance : ℚ) (linsolver_verbosity linsolver_type : Int) :
    ParameterGroup :=
  [("linsolver_tolerance", .real residual_tolerance),
   ("linsolver_verbosity", .int linsolver_verbosity),
   ("linsolver_type", .int linsolver_type)]

/-- A toy assembly delegate.  Its state is the right-hand side and the
solution buffer; assembling stores the sources as right-hand side, recovery
reads pressures and fluxes off the solution, and each cell has two faces. -/
def sampleSolver : TPFAPressureSolver (List ℚ × List ℚ) where
  init := fun ps _ _ _ => ps
  assemble := fun _ src _ _ _ _ => (src, [])
  linearSystem := fun ps =>
    { n := ps.1.length, nnz := ps.1.length, ia := [], ja := [], sa := [], b := ps.1, x := ps.2 }
  storeSolution := fun ps x => (ps.1, x)
  computePressuresAndFluxes := fun ps => (ps.2, ps.2 ++ ps.2.map (fun v => -v))
  faceFluxToCellFlux := fun _ face_flux => face_flux
  numCellFaces := fun ps => ps.1.map (fun _ => 2)

/-- A toy linear solver: returns the right-hand side as solution and reports
the given convergence flag after three iterations. -/
def sampleLinsolver (converged : Bool) : LinearSolverISTL Unit where
  init := fun _ _ => ()
  solve := fun _ s => ((), { converged := converged, iterations := 3, reduction := 1 / 2 }, s.b)

/-- Two faces, face `f` carrying boundary id `f`. -/
def sampleGrid : GridInterface :=
  { grid := { boundaryId := fun f => f }, numberOfFaces := 2 }

/-- Boundary id 0 is Dirichlet with pressure 5, every other id is no-flow. -/
def sampleBC : BCInterface :=
  { size := 2, flowCond := fun i => if i = 0 then .dirichlet 5 else .neumann 0 }

/-- Mobilities `(s, 1 - s)` and densities `(1000, 800)` in every cell. -/
def sampleFluid : FluidInterface :=
  { phaseMobilities := fun _ s => (s, 1 - s), phaseDensities := fun _ => (1000, 800) }

/-- An instance whose grid pointer has been set to `sampleGrid`. -/
def sampleState : TpfaInterface (List ℚ × List ℚ) Unit :=
  { pgrid_ := some sampleGrid, psolver_ := ([], []), linsolver_ := (),
    flow_solution_ := { pressure_ := [], outflux_ := { data_ := [], row_start_ := [] } } }

/-- Boundary id 0 is periodic, every other id is Neumann with outflux 1. -/
def mixedBC : BCInterface :=
  { size := 2, flowCond := fun i => if i = 0 then .periodic 0 else .neumann 1 }

/-- Boundary id 1 is periodic, every other id is no-flow. -/
def unusedPeriodicBC : BCInterface :=
  { size := 2, flowCond := fun i => if i = 1 then .periodic 0 else .neumann 0 }

/-- Two faces, both carrying boundary id 0. -/
def interiorGrid : GridInterface :=
  { grid := { boundaryId := fun _ => 0 }, numberOfFaces := 2 }

/-- An instance whose grid pointer has been set to `interiorGrid`. -/
def interiorState : TpfaInterface (List ℚ × List ℚ) Unit :=
  { pgrid_ := some interiorGrid, psolver_ := ([], []), linsolver_ := (),
    flow_solution_ := { pressure_ := [], outflux_ := { data_ := [], row_start_ := [] } } }

/-- Boundary id 0 is Dirichlet with pressure 5, every other id is Neumann with
outflux 1. -/
def leakyBC : BCInterface :=
  { size := 2, flowCond := fun i => if i = 0 then .dirichlet 5 else .neumann 1 }

/-- Boundary id 0 is no-flow, every other id is periodic. -/
def periodicLastBC : BCInterface :=
  { size := 2, flowCond := fun i => if i = 0 then .neumann 0 else .periodic 0 }

/-- Boundary id 0 is Neumann with outflux 1, every other id is periodic. -/
def fluxFirstBC : BCInterface :=
  { size := 2, flowCond := fun i => if i = 0 then .neumann 1 else .periodic 0 }

/-- Every boundary id is no-flow. -/
def noflowBC : BCInterface :=
  { size := 2, flowCond := fun _ => .neumann 0 }

/-- Permeability data of one cell, the identity tensor. -/
def sampleRock : RockInterface :=
  { permeabilityData := [1, 0, 0, 0, 1, 0, 0, 0, 1] }

/-- An instance on `sampleGrid` that already holds a flow solution. -/
def priorState : TpfaInterface (List ℚ × List ℚ) Unit :=
  { pgrid_ := some sampleGrid, psolver_ := ([], []), linsolver_ := (),
    flow_solution_ := { pressure_ := [3], outflux_ := { data_ := [1, -1], row_start_ := [0, 2] } } }

/-! ## The coefficient loop -/

theorem cellLoop_succ (fl : FluidInterface) (sat : List ℚ) (rem cell : Nat)
    (totmob omega : List ℚ) :
    cellLoop fl sat (rem + 1) cell totmob omega =
      cellLoop fl sat rem (cell + 1) (totmob.set cell (cellTotmob fl sat cell))
        (omega.set cell (cellOmega fl sat cell)) := rfl

theorem cellLoop_length (fl : FluidInterface) (sat : List ℚ) :
    ∀ (rem cell : Nat) (totmob omega : List ℚ),
      (cellLoop fl sat rem cell totmob omega).1.length = totmob.length ∧
      (cellLoop fl sat rem cell totmob omega).2.length = omega.length := by
  intro rem
  induction rem with
  | zero => intro cell totmob omega; simp [cellLoop]
  | succ k ih =>
    intro cell totmob omega
    rw [cellLoop_succ]
    have h := ih (cell + 1) (totmob.set cell (cellTotmob fl sat cell))
      (omega.set cell (cellOmega fl sat cell))
    simpa using h

theorem cellLoop_below (fl : FluidInterface) (sat : List ℚ) :
    ∀ (rem cell : Nat) (totmob omega : List ℚ) (c : Nat), c < cell →
      (cellLoop fl sat rem cell totmob omega).1[c]? = totmob[c]? ∧
      (cellLoop fl sat rem cell totmob omega).2[c]? = omega[c]? := by
  intro rem
  induction rem with
  | zero => intro cell totmob omega c _; simp [cellLoop]
  | succ k ih =>
    intro cell totmob omega c hc
    rw [cellLoop_succ]
    have h := ih (cell + 1) (totmob.set cell (cellTotmob fl sat cell))
      (omega.set cell (cellOmega fl sat cell)) c (by omega)
    have hne : cell ≠ c := by omega
    rw [h.1, h.2, List.getElem?_set_ne hne, List.getElem?_set_ne hne]
    exact ⟨rfl, rfl⟩

theorem cellLoop_get (fl : FluidInterface) (sat : List ℚ) :
    ∀ (rem cell : Nat) (totmob omega : List ℚ) (c : Nat),
      cell ≤ c → c < cell + rem → c < totmob.length → c < omega.length →
      (cellLoop fl sat rem cell totmob omega).1[c]? = some (cellTotmob fl sat c) ∧
      (cellLoop fl sat rem cell totmob omega).2[c]? = some (cellOmega fl sat c) := by
  intro rem
  induction rem with
  | zero => intro cell totmob omega c h1 h2; omega
  | succ k ih =>
    intro cell totmob omega c h1 h2 h3 h4
    rw [cellLoop_succ]
    rcases Nat.eq_or_lt_of_le h1 with heq | hlt
    · subst heq
      have h := cellLoop_below fl sat k (cell + 1) (totmob.set cell (cellTotmob fl sat cell))
        (omega.set cell (cellOmega fl sat cell)) cell (by omega)
      rw [h.1, h.2, List.getElem?_set_self h3, List.getElem?_set_self h4]
      exact ⟨rfl, rfl⟩
    · exact ih (cell + 1) _ _ c (by omega) (by omega) (by simpa using h3) (by simpa using h4)

/-! ## The face loop -/

theorem faceLoop_step_ok (g : GridInterface) (bc : BCInterface) (rem face : Nat)
    (bctypes : List FlowBCTypes) (bcvalues : List ℚ)
    (hok : faceOK g bc face) (hlen : face < bcvalues.length) :
    faceLoop g bc (rem + 1) face bctypes bcvalues =
      faceLoop g bc rem (face + 1) (bctypes.set face (faceTag (faceCond g bc face)))
        (bcvalues.set face (faceValue (faceCond g bc face))) := by
  unfold faceOK faceCond at hok
  obtain ⟨c, hc⟩ : ∃ c, bc.flowCond (g.grid.boundaryId face) = c := ⟨_, rfl⟩
  rw [hc] at hok
  simp only [faceLoop, faceCond, faceTag, faceValue, hc]
  cases c with
  | dirichlet p => simp [FlowBC.isDirichlet]
  | neumann q =>
    have hq : q = 0 := by simpa [FlowBC.isDirichlet, FlowBC.isNeumann, FlowBC.outflux] using hok
    subst hq
    simp [FlowBC.isDirichlet, FlowBC.isNeumann, FlowBC.outflux, hlen]
  | periodic d =>
    simp [FlowBC.isDirichlet, FlowBC.isNeumann] at hok

theorem faceLoop_step_bad (g : GridInterface) (bc : BCInterface) (rem face : Nat)
    (bctypes : List FlowBCTypes) (bcvalues : List ℚ)
    (hbad : ¬ faceOK g bc face) (hlen : face < bcvalues.length) :
    faceLoop g bc (rem + 1) face bctypes bcvalues = .error (faceError (faceCond g bc face)) := by
  unfold faceOK faceCond at hbad
  obtain ⟨c, hc⟩ : ∃ c, bc.flowCond (g.grid.boundaryId face) = c := ⟨_, rfl⟩
  rw [hc] at hbad
  simp only [faceLoop, faceCond, faceError, hc]
  cases c with
  | dirichlet p =>
    simp [FlowBC.isDirichlet] at hbad
  | neumann q =>
    have hq : q ≠ 0 := by simpa [FlowBC.isDirichlet, FlowBC.isNeumann, FlowBC.outflux] using hbad
    simp [FlowBC.isDirichlet, FlowBC.isNeumann, FlowBC.outflux, hlen, hq]
  | periodic d => simp [FlowBC.isDirichlet, FlowBC.isNeumann]

/-- The loop stops at the first face it does not pass, with that face's error. -/
theorem faceLoop_first_bad (g : GridInterface) (bc : BCInterface) (f : Nat) :
    ∀ (rem face : Nat) (bctypes : List FlowBCTypes) (bcvalues : List ℚ),
      face ≤ f → f < face + rem → face + rem ≤ bcvalues.length →
      (∀ f', face ≤ f' → f' < f → faceOK g bc f') → ¬ faceOK g bc f →
      faceLoop g bc rem face bctypes bcvalues = .error (faceError (faceCond g bc f)) := by
  intro rem
  induction rem with
  | zero => intro face bctypes bcvalues h1 h2; omega
  | succ k ih =>
    intro face bctypes bcvalues h1 h2 h3 hbefore hbad
    rcases Nat.eq_or_lt_of_le h1 with heq | hlt
    · subst heq
      exact faceLoop_step_bad g bc k face bctypes bcvalues hbad (by omega)
    · rw [faceLoop_step_ok g bc k face bctypes bcvalues (hbefore face (le_refl _) hlt) (by omega)]
      exact ih (face + 1) _ _ (by omega) (by omega) (by simp; omega)
        (fun f' h h' => hbefore f' (by omega) h') hbad

/-- When every remaining face passes, the loop returns arrays holding each
face's tag and value, and leaves the entries below `face` as they were. -/
theorem faceLoop_all_ok (g : GridInterface) (bc : BCInterface) :
    ∀ (rem face : Nat) (bctypes : List FlowBCTypes) (bcvalues : List ℚ),
      face + rem ≤ bctypes.length → face + rem ≤ bcvalues.length →
      (∀ f, face ≤ f → f < face + rem → faceOK g bc f) →
      ∃ bt bv, faceLoop g bc rem face bctypes bcvalues = .ok (bt, bv) ∧
        bt.length = bctypes.length ∧ bv.length = bcvalues.length ∧
        (∀ f, face ≤ f → f < face + rem →
          bt[f]? = some (faceTag (faceCond g bc f)) ∧
          bv[f]? = some (faceValue (faceCond g bc f))) ∧
        (∀ f, f < face → bt[f]? = bctypes[f]? ∧ bv[f]? = bcvalues[f]?) := by
  intro rem
  induction rem with
  | zero =>
    intro face bctypes bcvalues _ _ _
    exact ⟨bctypes, bcvalues, rfl, rfl, rfl, fun f h1 h2 => by omega, fun f _ => ⟨rfl, rfl⟩⟩
  | succ k ih =>
    intro face bctypes bcvalues h1 h2 hall
    rw [faceLoop_step_ok g bc k face bctypes bcvalues (hall face (le_refl _) (by omega))
      (by omega)]
    obtain ⟨bt, bv, hres, hl1, hl2, hin, hbelow⟩ :=
      ih (face + 1) (bctypes.set face (faceTag (faceCond g bc face)))
        (bcvalues.set face (faceValue (faceCond g bc face)))
        (by simp; omega) (by simp; omega) (fun f h h' => hall f (by omega) (by omega))
    refine ⟨bt, bv, hres, by simpa using hl1, by simpa using hl2, ?_, ?_⟩
    · intro f hf1 hf2
      rcases Nat.eq_or_lt_of_le hf1 with heq | hlt
      · subst heq
        have hb := hbelow face (by omega)
        rw [hb.1, hb.2, List.getElem?_set_self (by omega), List.getElem?_set_self (by omega)]
        exact ⟨rfl, rfl⟩
      · exact hin f (by omega) (by omega)
    · intro f hf
      have hb := hbelow f (by omega)
      have hne : face ≠ f := by omega
      rw [hb.1, hb.2, List.getElem?_set_ne hne, List.getElem?_set_ne hne]
      exact ⟨rfl, rfl⟩

/-- The loop throws exactly when some face in its range does not pass. -/
theorem faceLoop_error_of_bad (g : GridInterface) (bc : BCInterface)
    (rem face : Nat) (bctypes : List FlowBCTypes) (bcvalues : List ℚ)
    (hlen : face + rem ≤ bcvalues.length)
    (hex : ∃ f, face ≤ f ∧ f < face + rem ∧ ¬ faceOK g bc f) :
    ∃ f, face ≤ f ∧ f < face + rem ∧ ¬ faceOK g bc f ∧
      (∀ f', face ≤ f' → f' < f → faceOK g bc f') ∧
      faceLoop g bc rem face bctypes bcvalues = .error (faceError (faceCond g bc f)) := by
  classical
  have hex' : ∃ f, (face ≤ f ∧ f < face + rem) ∧ ¬ faceOK g bc f := by
    obtain ⟨f, h1, h2, h3⟩ := hex
    exact ⟨f, ⟨h1, h2⟩, h3⟩
  have hspec := Nat.find_spec hex'
  have hmin : ∀ f', face ≤ f' → f' < Nat.find hex' → faceOK g bc f' := by
    intro f' h1 h2
    by_contra hbad
    exact Nat.find_min hex' h2 ⟨⟨h1, by omega⟩, hbad⟩
  exact ⟨Nat.find hex', hspec.1.1, hspec.1.2, hspec.2, hmin,
    faceLoop_first_bad g bc _ rem face bctypes bcvalues hspec.1.1 hspec.1.2 hlen hmin hspec.2⟩

/-! ## Unfolding `solve` -/

theorem solve_of_boundary_error {PS LS : Type} (P : TPFAPressureSolver PS)
    (L : LinearSolverISTL LS) (fl : FluidInterface) (sat : List ℚ) (bc : BCInterface)
    (src : List ℚ) (tol : ℚ) (verb typ : Int) (same : Bool) (self : TpfaInterface PS LS)
    (g : GridInterface) (e : Error)
    (hg : self.pgrid_ = some g) (hb : solveBoundary g bc = .error e) :
    solve P L fl sat bc src tol verb typ same self =
      { result := .error e, state := self, calls := [], notices := solveNotices same } := by
  unfold solveBoundary at hb
  simp only [solve, hg, hb, solveNotices]

theorem solve_of_boundary_ok {PS LS : Type} (P : TPFAPressureSolver PS)
    (L : LinearSolverISTL LS) (fl : FluidInterface) (sat : List ℚ) (bc : BCInterface)
    (src : List ℚ) (tol : ℚ) (verb typ : Int) (same : Bool) (self : TpfaInterface PS LS)
    (g : GridInterface) (bt : List FlowBCTypes) (bv : List ℚ)
    (hg : self.pgrid_ = some g) (hb : solveBoundary g bc = .ok (bt, bv)) :
    solve P L fl sat bc src tol verb typ same self =
      (let co := solveCoefficients fl sat
       let ps := P.assemble self.psolver_ src co.1 co.2 bt bv
       let s := P.linearSystem ps
       let params := solveParams tol verb typ
       let r := L.solve (L.init self.linsolver_ params) s
       let ps := P.storeSolution ps r.2.2
       let calls : List Call :=
         [.assemble src co.1 co.2 bt bv, .linearSystem, .linsolverInit params,
          .linsolverSolve s r.2.1]
       if r.2.1.converged = false then
         { result := .error (.linearSolverFailed r.2.1.iterations r.2.1.reduction),
           state := { self with psolver_ := ps, linsolver_ := r.1 },
           calls := calls, notices := solveNotices same }
       else
         { result := .ok (),
           state := { self with
             psolver_ := ps, linsolver_ := r.1,
             flow_solution_ :=
               { pressure_ := (P.computePressuresAndFluxes ps).1,
                 outflux_ := self.flow_solution_.clear.outflux_.assign
                   (P.faceFluxToCellFlux ps (P.computePressuresAndFluxes ps).2)
                   (P.numCellFaces ps) } },
           calls := calls ++ [.computePressuresAndFluxes,
             .faceFluxToCellFlux (P.computePressuresAndFluxes ps).2, .numCellFaces],
           notices := solveNotices same }) := by
  unfold solveBoundary at hb
  simp only [solve, hg, hb, solveNotices, solveCoefficients, solveParams]
  split <;> simp_all

/-! ## The boundary arrays -/

theorem solveBoundary_of_all_ok (g : GridInterface) (bc : BCInterface)
    (hall : ∀ f, f < g.numberOfFaces → faceOK g bc f) :
    ∃ bt bv, solveBoundary g bc = .ok (bt, bv) ∧
      bt.length = g.numberOfFaces ∧ bv.length = g.numberOfFaces ∧
      ∀ f, f < g.numberOfFaces →
        bt[f]? = some (faceTag (faceCond g bc f)) ∧
        bv[f]? = some (faceValue (faceCond g bc f)) := by
  obtain ⟨bt, bv, hres, hl1, hl2, hin, _⟩ :=
    faceLoop_all_ok g bc g.numberOfFaces 0 (List.replicate g.numberOfFaces .FBC_UNSET)
      (List.replicate g.numberOfFaces 0) (by simp) (by simp)
      (fun f _ h => hall f (by omega))
  exact ⟨bt, bv, hres, by simpa using hl1, by simpa using hl2,
    fun f hf => hin f (Nat.zero_le _) (by omega)⟩

theorem solveBoundary_of_bad (g : GridInterface) (bc : BCInterface)
    (hex : ∃ f, f < g.numberOfFaces ∧ ¬ faceOK g bc f) :
    ∃ f, f < g.numberOfFaces ∧ ¬ faceOK g bc f ∧ (∀ f', f' < f → faceOK g bc f') ∧
      solveBoundary g bc = .error (faceError (faceCond g bc f)) := by
  obtain ⟨f0, h0, hbad0⟩ := hex
  obtain ⟨f, _, h2, h3, h4, h5⟩ :=
    faceLoop_error_of_bad g bc g.numberOfFaces 0 (List.replicate g.numberOfFaces .FBC_UNSET)
      (List.replicate g.numberOfFaces 0) (by simp) ⟨f0, Nat.zero_le _, by omega, hbad0⟩
  exact ⟨f, by omega, h3, fun f' h => h4 f' (Nat.zero_le _) h, h5⟩

theorem solveBoundary_ok_all (g : GridInterface) (bc : BCInterface)
    (bt : List FlowBCTypes) (bv : List ℚ) (hb : solveBoundary g bc = .ok (bt, bv)) :
    ∀ f, f < g.numberOfFaces → faceOK g bc f := by
  intro f hf
  by_contra hbad
  obtain ⟨f', _, _, _, herr⟩ := solveBoundary_of_bad g bc ⟨f, hf, hbad⟩
  rw [hb] at herr
  cases herr

theorem solveBoundary_ok_spec (g : GridInterface) (bc : BCInterface)
    (bt : List FlowBCTypes) (bv : List ℚ) (hb : solveBoundary g bc = .ok (bt, bv)) :
    bt.length = g.numberOfFaces ∧ bv.length = g.numberOfFaces ∧
      ∀ f, f < g.numberOfFaces →
        bt[f]? = some (faceTag (faceCond g bc f)) ∧
        bv[f]? = some (faceValue (faceCond g bc f)) := by
  obtain ⟨bt', bv', hres, h⟩ := solveBoundary_of_all_ok g bc (solveBoundary_ok_all g bc bt bv hb)
  rw [hb] at hres
  injection hres with hres
  injection hres with h1 h2
  subst h1 h2
  exact h

/-! ## The collaborator calls of `solve` -/

/-- An `assemble` call in the record of `solve` carries the source array, the
coefficient arrays and the boundary arrays that `solve` built. -/
theorem solve_assemble_call {PS LS : Type} (P : TPFAPressureSolver PS)
    (L : LinearSolverISTL LS) (fl : FluidInterface) (sat : List ℚ) (bc : BCInterface)
    (src : List ℚ) (tol : ℚ) (verb typ : Int) (same : Bool) (self : TpfaInterface PS LS)
    (g : GridInterface) (hg : self.pgrid_ = some g)
    (s t o : List ℚ) (bt : List FlowBCTypes) (bv : List ℚ)
    (hmem : Call.assemble s t o bt bv ∈ (solve P L fl sat bc src tol verb typ same self).calls) :
    solveBoundary g bc = .ok (bt, bv) ∧ s = src ∧
      t = (solveCoefficients fl sat).1 ∧ o = (solveCoefficients fl sat).2 := by
  cases hb : solveBoundary g bc with
  | error e =>
    rw [solve_of_boundary_error P L fl sat bc src tol verb typ same self g e hg hb] at hmem
    simp at hmem
  | ok r =>
    obtain ⟨bt', bv'⟩ := r
    rw [solve_of_boundary_ok P L fl sat bc src tol verb typ same self g bt' bv' hg hb] at hmem
    simp only at hmem
    split at hmem <;> simp at hmem <;>
      (obtain ⟨h1, h2, h3, h4, h5⟩ := hmem; subst h1 h2 h3 h4 h5; exact ⟨rfl, rfl, rfl, rfl⟩)

/-- When the face loop completes, `solve` calls `assemble` with the arrays built. -/
theorem solve_calls_assemble {PS LS : Type} (P : TPFAPressureSolver PS)
    (L : LinearSolverISTL LS) (fl : FluidInterface) (sat : List ℚ) (bc : BCInterface)
    (src : List ℚ) (tol : ℚ) (verb typ : Int) (same : Bool) (self : TpfaInterface PS LS)
    (g : GridInterface) (hg : self.pgrid_ = some g)
    (hall : ∀ f, f < g.numberOfFaces → faceOK g bc f) :
    ∃ bt bv, Call.assemble src (solveCoefficients fl sat).1 (solveCoefficients fl sat).2 bt bv ∈
      (solve P L fl sat bc src tol verb typ same self).calls := by
  obtain ⟨bt, bv, hb, _⟩ := solveBoundary_of_all_ok g bc hall
  refine ⟨bt, bv, ?_⟩
  rw [solve_of_boundary_ok P L fl sat bc src tol verb typ same self g bt bv hg hb]
  simp only
  split <;> simp

/-! ## Claims on the arrays handed to `assemble` -/

/-- C1: in `solve`, the boundary arrays handed to `psolver_.assemble` both have
length `numberOfFaces`; at every face whose condition is Dirichlet they hold
`FBC_PRESSURE` and the prescribed pressure, and at every face whose condition is
Neumann with zero outflux they hold `FBC_FLUX` and `0`.  When every face is of
one of these two kinds, `solve` does make that `assemble` call. -/
theorem solve_boundary_arrays {PS LS : Type} (P : TPFAPressureSolver PS)
    (L : LinearSolverISTL LS) (fl : FluidInterface) (sat : List ℚ) (bc : BCInterface)
    (src : List ℚ) (tol : ℚ) (verb typ : Int) (same : Bool) (self : TpfaInterface PS LS)
    (g : GridInterface) (hg : self.pgrid_ = some g) :
    (∀ s t o bt bv,
      Call.assemble s t o bt bv ∈ (solve P L fl sat bc src tol verb typ same self).calls →
      bt.length = g.numberOfFaces ∧ bv.length = g.numberOfFaces ∧
      ∀ f, f < g.numberOfFaces →
        ((bc.flowCond (g.grid.boundaryId f)).isDirichlet = true →
          bt[f]? = some FlowBCTypes.FBC_PRESSURE ∧
          bv[f]? = some (bc.flowCond (g.grid.boundaryId f)).pressure) ∧
        ((bc.flowCond (g.grid.boundaryId f)).isNeumann = true →
          (bc.flowCond (g.grid.boundaryId f)).outflux = 0 →
          bt[f]? = some FlowBCTypes.FBC_FLUX ∧ bv[f]? = some 0)) ∧
    ((∀ f, f < g.numberOfFaces →
        (bc.flowCond (g.grid.boundaryId f)).isDirichlet = true ∨
        ((bc.flowCond (g.grid.boundaryId f)).isNeumann = true ∧
          (bc.flowCond (g.grid.boundaryId f)).outflux = 0)) →
      ∃ t o bt bv,
        Call.assemble src t o bt bv ∈ (solve P L fl sat bc src tol verb typ same self).calls) := by
  refine ⟨?_, ?_⟩
  · intro s t o bt bv hmem
    obtain ⟨hb, _, _, _⟩ :=
      solve_assemble_call P L fl sat bc src tol verb typ same self g hg s t o bt bv hmem
    obtain ⟨hl1, hl2, hget⟩ := solveBoundary_ok_spec g bc bt bv hb
    refine ⟨hl1, hl2, ?_⟩
    intro f hf
    obtain ⟨ht, hv⟩ := hget f hf
    unfold faceCond at ht hv
    refine ⟨?_, ?_⟩
    · intro hD
      rw [ht, hv]
      simp [faceTag, faceValue, hD]
    · intro hN hq
      rw [ht, hv]
      cases hc : bc.flowCond (g.grid.boundaryId f) with
      | dirichlet p => rw [hc] at hN; simp [FlowBC.isNeumann] at hN
      | neumann q =>
        rw [hc] at hq
        simp [faceTag, faceValue, FlowBC.isDirichlet] at hq ⊢
        exact hq
      | periodic d => rw [hc] at hN; simp [FlowBC.isNeumann] at hN
  · intro hall
    obtain ⟨bt, bv, h⟩ :=
      solve_calls_assemble P L fl sat bc src tol verb typ same self g hg hall
    exact ⟨_, _, bt, bv, h⟩

/-- C2: in `solve`, the coefficient arrays handed to `psolver_.assemble` both
have length `sat.size()`; at every cell with `m0 + m1 ≠ 0` they hold
`totmob = m0 + m1` and `omega = rho0*f0 + rho1*(1 - f0)` with
`f0 = m0/(m0 + m1)`.  When every face is Dirichlet or zero-flux Neumann,
`solve` does make that `assemble` call. -/
theorem solve_coefficient_arrays {PS LS : Type} (P : TPFAPressureSolver PS)
    (L : LinearSolverISTL LS) (fl : FluidInterface) (sat : List ℚ) (bc : BCInterface)
    (src : List ℚ) (tol : ℚ) (verb typ : Int) (same : Bool) (self : TpfaInterface PS LS)
    (g : GridInterface) (hg : self.pgrid_ = some g) :
    (∀ s t o bt bv,
      Call.assemble s t o bt bv ∈ (solve P L fl sat bc src tol verb typ same self).calls →
      t.length = sat.length ∧ o.length = sat.length ∧
      ∀ c, c < sat.length →
        ∀ m0 m1 rho0 rho1 : ℚ,
          fl.phaseMobilities c (sat.getD c 0) = (m0, m1) →
          fl.phaseDensities c = (rho0, rho1) → m0 + m1 ≠ 0 →
          t[c]? = some (m0 + m1) ∧
          o[c]? = some (rho0 * (m0 / (m0 + m1)) + rho1 * (1 - m0 / (m0 + m1)))) ∧
    ((∀ f, f < g.numberOfFaces →
        (bc.flowCond (g.grid.boundaryId f)).isDirichlet = true ∨
        ((bc.flowCond (g.grid.boundaryId f)).isNeumann = true ∧
          (bc.flowCond (g.grid.boundaryId f)).outflux = 0)) →
      ∃ t o bt bv,
        Call.assemble src t o bt bv ∈ (solve P L fl sat bc src tol verb typ same self).calls) := by
  refine ⟨?_, ?_⟩
  · intro s t o bt bv hmem
    obtain ⟨_, _, ht, ho⟩ :=
      solve_assemble_call P L fl sat bc src tol verb typ same self g hg s t o bt bv hmem
    subst ht ho
    have hlen := cellLoop_length fl sat sat.length 0 (List.replicate sat.length 1)
      (List.replicate sat.length 0)
    refine ⟨by simpa [solveCoefficients] using hlen.1,
      by simpa [solveCoefficients] using hlen.2, ?_⟩
    intro c hc m0 m1 rho0 rho1 hm hrho _
    have h := cellLoop_get fl sat sat.length 0 (List.replicate sat.length 1)
      (List.replicate sat.length 0) c (Nat.zero_le _) (by omega) (by simpa using hc)
      (by simpa using hc)
    unfold solveCoefficients
    rw [h.1, h.2]
    simp only [cellTotmob, cellOmega, hm, hrho, and_self]
  · intro hall
    obtain ⟨bt, bv, h⟩ :=
      solve_calls_assemble P L fl sat bc src tol verb typ same self g hg hall
    exact ⟨_, _, bt, bv, h⟩

/-- The density average written to `omega` lies between the two densities when
the mobilities are non-negative with positive sum, and is one of the densities
when the other phase is immobile. -/
theorem omega_between (m0 m1 rho0 rho1 : ℚ) (h0 : 0 ≤ m0) (h1 : 0 ≤ m1) (hpos : 0 < m0 + m1) :
    min rho0 rho1 ≤ rho0 * (m0 / (m0 + m1)) + rho1 * (1 - m0 / (m0 + m1)) ∧
    rho0 * (m0 / (m0 + m1)) + rho1 * (1 - m0 / (m0 + m1)) ≤ max rho0 rho1 ∧
    (m1 = 0 → rho0 * (m0 / (m0 + m1)) + rho1 * (1 - m0 / (m0 + m1)) = rho0) ∧
    (m0 = 0 → rho0 * (m0 / (m0 + m1)) + rho1 * (1 - m0 / (m0 + m1)) = rho1) := by
  have hf0 : 0 ≤ m0 / (m0 + m1) := div_nonneg h0 (le_of_lt hpos)
  have hf1 : m0 / (m0 + m1) ≤ 1 := (div_le_one hpos).mpr (by linarith)
  have hg0 : 0 ≤ 1 - m0 / (m0 + m1) := by linarith
  refine ⟨?_, ?_, ?_, ?_⟩
  · rcases le_total rho0 rho1 with h | h
    · rw [min_eq_left h]
      nlinarith [mul_nonneg hg0 (sub_nonneg.mpr h)]
    · rw [min_eq_right h]
      nlinarith [mul_nonneg hf0 (sub_nonneg.mpr h)]
  · rcases le_total rho0 rho1 with h | h
    · rw [max_eq_right h]
      nlinarith [mul_nonneg hf0 (sub_nonneg.mpr h)]
    · rw [max_eq_left h]
      nlinarith [mul_nonneg hg0 (sub_nonneg.mpr h)]
  · intro hm1
    subst hm1
    have hm0 : m0 ≠ 0 := by intro h; rw [h] at hpos; simp at hpos
    simp [hm0]
  · intro hm0
    subst hm0
    simp

/-- C10: in `solve`, for every cell whose phase mobilities satisfy `m0 ≥ 0`,
`m1 ≥ 0` and `m0 + m1 > 0`, the `omega` entry handed to `psolver_.assemble`
lies between `min(rho0, rho1)` and `max(rho0, rho1)`, equals `rho0` when
`m1 = 0` and `rho1` when `m0 = 0`.  When every face is Dirichlet or zero-flux
Neumann, `solve` does make that `assemble` call. -/
theorem solve_omega_convex {PS LS : Type} (P : TPFAPressureSolver PS)
    (L : LinearSolverISTL LS) (fl : FluidInterface) (sat : List ℚ) (bc : BCInterface)
    (src : List ℚ) (tol : ℚ) (verb typ : Int) (same : Bool) (self : TpfaInterface PS LS)
    (g : GridInterface) (hg : self.pgrid_ = some g) :
    (∀ s t o bt bv,
      Call.assemble s t o bt bv ∈ (solve P L fl sat bc src tol verb typ same self).calls →
      ∀ c, c < sat.length →
        ∀ m0 m1 rho0 rho1 : ℚ,
          fl.phaseMobilities c (sat.getD c 0) = (m0, m1) →
          fl.phaseDensities c = (rho0, rho1) → 0 ≤ m0 → 0 ≤ m1 → 0 < m0 + m1 →
          ∃ w, o[c]? = some w ∧ min rho0 rho1 ≤ w ∧ w ≤ max rho0 rho1 ∧
            (m1 = 0 → w = rho0) ∧ (m0 = 0 → w = rho1)) ∧
    ((∀ f, f < g.numberOfFaces →
        (bc.flowCond (g.grid.boundaryId f)).isDirichlet = true ∨
        ((bc.flowCond (g.grid.boundaryId f)).isNeumann = true ∧
          (bc.flowCond (g.grid.boundaryId f)).outflux = 0)) →
      ∃ t o bt bv,
        Call.assemble src t o bt bv ∈ (solve P L fl sat bc src tol verb typ same self).calls) := by
  refine ⟨?_, ?_⟩
  · intro s t o bt bv hmem c hc m0 m1 rho0 rho1 hm hrho h0 h1 hpos
    obtain ⟨_, _, _, ho⟩ :=
      solve_assemble_call P L fl sat bc src tol verb typ same self g hg s t o bt bv hmem
    subst ho
    have h := cellLoop_get fl sat sat.length 0 (List.replicate sat.length 1)
      (List.replicate sat.length 0) c (Nat.zero_le _) (by omega) (by simpa using hc)
      (by simpa using hc)
    refine ⟨rho0 * (m0 / (m0 + m1)) + rho1 * (1 - m0 / (m0 + m1)), ?_,
      omega_between m0 m1 rho0 rho1 h0 h1 hpos⟩
    unfold solveCoefficients
    rw [h.2]
    simp only [cellOmega, hm, hrho]
  · intro hall
    obtain ⟨bt, bv, h⟩ :=
      solve_calls_assemble P L fl sat bc src tol verb typ same self g hg hall
    exact ⟨_, _, bt, bv, h⟩

/-! ## The sample instance -/

theorem sample_assemble_call (converged : Bool) :
    Call.assemble [7] [1] [850] [.FBC_PRESSURE, .FBC_FLUX] [5, 0] ∈
      (solve sampleSolver (sampleLinsolver converged) sampleFluid [1 / 4] sampleBC [7]
        (1 / 100) 1 1 false sampleState).calls := by
  cases converged <;>
    norm_num [solve, cellLoop, faceLoop, sampleState, sampleGrid, sampleBC, sampleFluid,
      sampleSolver, sampleLinsolver, FlowBC.isDirichlet, FlowBC.isNeumann, FlowBC.pressure,
      FlowBC.outflux] <;>
    exact Or.inl ⟨rfl, rfl⟩

theorem sample_faces_pass :
    ∀ f, f < sampleGrid.numberOfFaces →
      (sampleBC.flowCond (sampleGrid.grid.boundaryId f)).isDirichlet = true ∨
      ((sampleBC.flowCond (sampleGrid.grid.boundaryId f)).isNeumann = true ∧
        (sampleBC.flowCond (sampleGrid.grid.boundaryId f)).outflux = 0) := by
  intro f hf
  have hf' : f < 2 := hf
  interval_cases f <;>
    simp [sampleBC, sampleGrid, FlowBC.isDirichlet, FlowBC.isNeumann, FlowBC.outflux]

/-- Witness for C1 on the sample instance: face 0 is Dirichlet with pressure 5,
face 1 is no-flow, and the `assemble` call carries `[FBC_PRESSURE, FBC_FLUX]`
and `[5, 0]`. -/
theorem solve_boundary_arrays_witness :
    sampleState.pgrid_ = some sampleGrid ∧
    (sampleBC.flowCond (sampleGrid.grid.boundaryId 0)).isDirichlet = true ∧
    (sampleBC.flowCond (sampleGrid.grid.boundaryId 1)).isNeumann = true ∧
    (sampleBC.flowCond (sampleGrid.grid.boundaryId 1)).outflux = 0 ∧
    Call.assemble [7] [1] [850] [.FBC_PRESSURE, .FBC_FLUX] [5, 0] ∈
      (solve sampleSolver (sampleLinsolver true) sampleFluid [1 / 4] sampleBC [7]
        (1 / 100) 1 1 false sampleState).calls ∧
    ([FlowBCTypes.FBC_PRESSURE, FlowBCTypes.FBC_FLUX].length = sampleGrid.numberOfFaces ∧
      ([5, 0] : List ℚ).length = sampleGrid.numberOfFaces) ∧
    ([FlowBCTypes.FBC_PRESSURE, FlowBCTypes.FBC_FLUX][0]? = some FlowBCTypes.FBC_PRESSURE ∧
      ([5, 0] : List ℚ)[0]? = some (sampleBC.flowCond (sampleGrid.grid.boundaryId 0)).pressure) ∧
    ([FlowBCTypes.FBC_PRESSURE, FlowBCTypes.FBC_FLUX][1]? = some FlowBCTypes.FBC_FLUX ∧
      ([5, 0] : List ℚ)[1]? = some 0) ∧
    (∃ t o bt bv, Call.assemble [7] t o bt bv ∈
      (solve sampleSolver (sampleLinsolver true) sampleFluid [1 / 4] sampleBC [7]
        (1 / 100) 1 1 false sampleState).calls) :=
  have h := solve_boundary_arrays sampleSolver (sampleLinsolver true) sampleFluid [1 / 4]
    sampleBC [7] (1 / 100) 1 1 false sampleState sampleGrid rfl
  have hc := h.1 _ _ _ _ _ (sample_assemble_call true)
  ⟨rfl, rfl, rfl, rfl, sample_assemble_call true, ⟨hc.1, hc.2.1⟩,
    (hc.2.2 0 (by decide)).1 rfl, (hc.2.2 1 (by decide)).2 rfl rfl, h.2 sample_faces_pass⟩

/-- Witness for C2 on the sample instance: one cell with saturation 1/4, hence
mobilities (1/4, 3/4) and densities (1000, 800). -/
theorem solve_coefficient_arrays_witness :
    sampleState.pgrid_ = some sampleGrid ∧
    Call.assemble [7] [1] [850] [.FBC_PRESSURE, .FBC_FLUX] [5, 0] ∈
      (solve sampleSolver (sampleLinsolver true) sampleFluid [1 / 4] sampleBC [7]
        (1 / 100) 1 1 false sampleState).calls ∧
    sampleFluid.phaseMobilities 0 (([1 / 4] : List ℚ).getD 0 0) = (1 / 4, 1 - 1 / 4) ∧
    sampleFluid.phaseDensities 0 = (1000, 800) ∧
    ((1 / 4 : ℚ) + (1 - 1 / 4) ≠ 0) ∧
    (([1] : List ℚ).length = ([1 / 4] : List ℚ).length ∧
      ([850] : List ℚ).length = ([1 / 4] : List ℚ).length) ∧
    (([1] : List ℚ)[0]? = some (1 / 4 + (1 - 1 / 4)) ∧
      ([850] : List ℚ)[0]? =
        some (1000 * (1 / 4 / (1 / 4 + (1 - 1 / 4))) +
          800 * (1 - 1 / 4 / (1 / 4 + (1 - 1 / 4))))) ∧
    (∃ t o bt bv, Call.assemble [7] t o bt bv ∈
      (solve sampleSolver (sampleLinsolver true) sampleFluid [1 / 4] sampleBC [7]
        (1 / 100) 1 1 false sampleState).calls) :=
  have h := solve_coefficient_arrays sampleSolver (sampleLinsolver true) sampleFluid [1 / 4]
    sampleBC [7] (1 / 100) 1 1 false sampleState sampleGrid rfl
  have hc := h.1 _ _ _ _ _ (sample_assemble_call true)
  have hne : (1 / 4 : ℚ) + (1 - 1 / 4) ≠ 0 := by norm_num
  ⟨rfl, sample_assemble_call true, rfl, rfl, hne, ⟨hc.1, hc.2.1⟩,
    hc.2.2 0 (by decide) (1 / 4) (1 - 1 / 4) 1000 800 rfl rfl hne, h.2 sample_faces_pass⟩

/-- Witness for C10 on the sample instance: the omega entry 850 lies between
the densities 800 and 1000. -/
theorem solve_omega_convex_witness :
    sampleState.pgrid_ = some sampleGrid ∧
    Call.assemble [7] [1] [850] [.FBC_PRESSURE, .FBC_FLUX] [5, 0] ∈
      (solve sampleSolver (sampleLinsolver false) sampleFluid [1 / 4] sampleBC [7]
        (1 / 100) 1 1 false sampleState).calls ∧
    ((0 : ℚ) ≤ 1 / 4 ∧ (0 : ℚ) ≤ 1 - 1 / 4 ∧ (0 : ℚ) < 1 / 4 + (1 - 1 / 4)) ∧
    (∃ w : ℚ, ([850] : List ℚ)[0]? = some w ∧ min 1000 800 ≤ w ∧ w ≤ max 1000 800 ∧
      ((1 - 1 / 4 : ℚ) = 0 → w = 1000) ∧ ((1 / 4 : ℚ) = 0 → w = 800)) :=
  have h := solve_omega_convex sampleSolver (sampleLinsolver false) sampleFluid [1 / 4]
    sampleBC [7] (1 / 100) 1 1 false sampleState sampleGrid rfl
  have h0 : (0 : ℚ) ≤ 1 / 4 := by norm_num
  have h1 : (0 : ℚ) ≤ 1 - 1 / 4 := by norm_num
  have hpos : (0 : ℚ) < 1 / 4 + (1 - 1 / 4) := by norm_num
  ⟨rfl, sample_assemble_call false, ⟨h0, h1, hpos⟩,
    h.1 _ _ _ _ _ (sample_assemble_call false) 0 (by decide) (1 / 4) (1 - 1 / 4) 1000 800
      rfl rfl h0 h1 hpos⟩

/-! ## Rejected boundary conditions in `solve` -/

theorem faceError_cases (c : FlowBC) :
    faceError c = .nonzeroNeumann ∨ faceError c = .unhandledBoundaryCondition := by
  unfold faceError
  split
  · exact Or.inl rfl
  · exact Or.inr rfl

/-- When some face does not pass the face loop, `solve` stops at the first such
face with that face's error, without calling a collaborator or changing the
object. -/
theorem solve_of_bad_face {PS LS : Type} (P : TPFAPressureSolver PS)
    (L : LinearSolverISTL LS) (fl : FluidInterface) (sat : List ℚ) (bc : BCInterface)
    (src : List ℚ) (tol : ℚ) (verb typ : Int) (same : Bool) (self : TpfaInterface PS LS)
    (g : GridInterface) (hg : self.pgrid_ = some g)
    (f : Nat) (hf : f < g.numberOfFaces) (hbad : ¬ faceOK g bc f) :
    ∃ f0, f0 ≤ f ∧ ¬ faceOK g bc f0 ∧ (∀ f', f' < f0 → faceOK g bc f') ∧
      solve P L fl sat bc src tol verb typ same self =
        { result := .error (faceError (faceCond g bc f0)), state := self, calls := [],
          notices := solveNotices same } := by
  obtain ⟨f0, _, hbad0, hmin, herr⟩ := solveBoundary_of_bad g bc ⟨f, hf, hbad⟩
  refine ⟨f0, ?_, hbad0, hmin, ?_⟩
  · by_contra hlt
    exact hbad (hmin f (by omega))
  · exact solve_of_boundary_error P L fl sat bc src tol verb typ same self g _ hg herr

/-- The face loop reads the condition set only at the boundary ids of the
faces it visits. -/
theorem faceLoop_congr (g : GridInterface) (bc bc' : BCInterface) :
    ∀ (rem face : Nat) (bctypes : List FlowBCTypes) (bcvalues : List ℚ),
      (∀ f, face ≤ f → f < face + rem →
        bc'.flowCond (g.grid.boundaryId f) = bc.flowCond (g.grid.boundaryId f)) →
      faceLoop g bc' rem face bctypes bcvalues = faceLoop g bc rem face bctypes bcvalues := by
  intro rem
  induction rem with
  | zero => intro face bctypes bcvalues _; rfl
  | succ k ih =>
    intro face bctypes bcvalues h
    have h0 := h face (le_refl _) (by omega)
    have hrec : ∀ bt bv, faceLoop g bc' k (face + 1) bt bv = faceLoop g bc k (face + 1) bt bv :=
      fun bt bv => ih (face + 1) bt bv (fun f h1 h2 => h f (by omega) (by omega))
    simp only [faceLoop, h0, hrec]

/-- Two condition sets that agree at the boundary id of every face give the
same outcome of `solve`. -/
theorem solve_congr_bc {PS LS : Type} (P : TPFAPressureSolver PS)
    (L : LinearSolverISTL LS) (fl : FluidInterface) (sat : List ℚ) (bc bc' : BCInterface)
    (src : List ℚ) (tol : ℚ) (verb typ : Int) (same : Bool) (self : TpfaInterface PS LS)
    (g : GridInterface) (hg : self.pgrid_ = some g)
    (hagree : ∀ f, f < g.numberOfFaces →
      bc'.flowCond (g.grid.boundaryId f) = bc.flowCond (g.grid.boundaryId f)) :
    solve P L fl sat bc' src tol verb typ same self =
      solve P L fl sat bc src tol verb typ same self := by
  have hb : solveBoundary g bc' = solveBoundary g bc :=
    faceLoop_congr g bc bc' g.numberOfFaces 0 _ _ (fun f _ h => hagree f (by omega))
  cases hr : solveBoundary g bc with
  | error e =>
    rw [solve_of_boundary_error P L fl sat bc src tol verb typ same self g e hg hr,
      solve_of_boundary_error P L fl sat bc' src tol verb typ same self g e hg (hb.trans hr)]
  | ok r =>
    obtain ⟨bt, bv⟩ := r
    rw [solve_of_boundary_ok P L fl sat bc src tol verb typ same self g bt bv hg hr,
      solve_of_boundary_ok P L fl sat bc' src tol verb typ same self g bt bv hg (hb.trans hr)]

/-- C3 (amended): when some face `f` has a Neumann condition with nonzero
outflux, `solve` fails without invoking any method of the assembly delegate or
of the linear solver (so neither `assemble` nor the linear solver's `solve`
runs) and leaves the object as it was.  The error is decided by the first face
`f0 ≤ f` that is neither Dirichlet nor Neumann with zero outflux: the
nonzero-Neumann error if the condition of `f0` is Neumann, the
unhandled-boundary-condition error if it is not.  In particular it is the
nonzero-Neumann error whenever every face below `f` is Dirichlet or Neumann. -/
theorem solve_nonzero_neumann_fails {PS LS : Type} (P : TPFAPressureSolver PS)
    (L : LinearSolverISTL LS) (fl : FluidInterface) (sat : List ℚ) (bc : BCInterface)
    (src : List ℚ) (tol : ℚ) (verb typ : Int) (same : Bool) (self : TpfaInterface PS LS)
    (g : GridInterface) (hg : self.pgrid_ = some g)
    (f : Nat) (hf : f < g.numberOfFaces)
    (hN : (bc.flowCond (g.grid.boundaryId f)).isNeumann = true)
    (hq : (bc.flowCond (g.grid.boundaryId f)).outflux ≠ 0) :
    (∃ f0, f0 ≤ f ∧
      (∀ f', f' < f0 →
        (bc.flowCond (g.grid.boundaryId f')).isDirichlet = true ∨
        ((bc.flowCond (g.grid.boundaryId f')).isNeumann = true ∧
          (bc.flowCond (g.grid.boundaryId f')).outflux = 0)) ∧
      ¬ ((bc.flowCond (g.grid.boundaryId f0)).isDirichlet = true ∨
        ((bc.flowCond (g.grid.boundaryId f0)).isNeumann = true ∧
          (bc.flowCond (g.grid.boundaryId f0)).outflux = 0)) ∧
      ((bc.flowCond (g.grid.boundaryId f0)).isNeumann = true →
        (solve P L fl sat bc src tol verb typ same self).result = .error .nonzeroNeumann) ∧
      ((bc.flowCond (g.grid.boundaryId f0)).isNeumann = false →
        (solve P L fl sat bc src tol verb typ same self).result =
          .error .unhandledBoundaryCondition)) ∧
    (solve P L fl sat bc src tol verb typ same self).calls = [] ∧
    (solve P L fl sat bc src tol verb typ same self).state = self ∧
    ((∀ f', f' < f →
        (bc.flowCond (g.grid.boundaryId f')).isDirichlet = true ∨
        (bc.flowCond (g.grid.boundaryId f')).isNeumann = true) →
      (solve P L fl sat bc src tol verb typ same self).result = .error .nonzeroNeumann) := by
  have hbad : ¬ faceOK g bc f := by
    unfold faceOK faceCond
    intro h
    rcases h with h | h
    · cases hc : bc.flowCond (g.grid.boundaryId f) <;>
        simp [hc, FlowBC.isDirichlet, FlowBC.isNeumann] at h hN
    · exact hq h.2
  obtain ⟨f0, hle, hbad0, hmin, hs⟩ :=
    solve_of_bad_face P L fl sat bc src tol verb typ same self g hg f hf hbad
  rw [hs]
  refine ⟨⟨f0, hle, hmin, hbad0, ?_, ?_⟩, rfl, rfl, ?_⟩
  · intro hN0
    simp [faceError, faceCond, hN0]
  · intro hN0
    simp [faceError, faceCond, hN0]
  · intro hbefore
    have hN0 : (faceCond g bc f0).isNeumann = true := by
      rcases Nat.eq_or_lt_of_le hle with heq | hlt
      · rw [heq]; exact hN
      · rcases hbefore f0 hlt with h | h
        · exact absurd (Or.inl h) hbad0
        · exact h
    simp [faceError, hN0]

/-- C4 (amended): when the condition read for some face `f`,
`bc.flowCond(grid.boundaryId(f))`, is periodic, `solve` fails without invoking
any method of the assembly delegate or of the linear solver (so nothing is
assembled) and leaves the object as it was.  The error is decided by the first
face `f0 ≤ f` that is neither Dirichlet nor Neumann with zero outflux: the
unhandled-boundary-condition error if the condition of `f0` is not Neumann,
the nonzero-Neumann error if it is.  In particular it is the
unhandled-boundary-condition error whenever no face below `f` is Neumann with
nonzero outflux.  Conditions on boundary ids that no face carries are not
read: two condition sets that agree at the boundary id of every face give the
same outcome. -/
theorem solve_periodic_face_fails {PS LS : Type} (P : TPFAPressureSolver PS)
    (L : LinearSolverISTL LS) (fl : FluidInterface) (sat : List ℚ) (bc : BCInterface)
    (src : List ℚ) (tol : ℚ) (verb typ : Int) (same : Bool) (self : TpfaInterface PS LS)
    (g : GridInterface) (hg : self.pgrid_ = some g) :
    (∀ f, f < g.numberOfFaces → (bc.flowCond (g.grid.boundaryId f)).isPeriodic = true →
      (∃ f0, f0 ≤ f ∧
        (∀ f', f' < f0 →
          (bc.flowCond (g.grid.boundaryId f')).isDirichlet = true ∨
          ((bc.flowCond (g.grid.boundaryId f')).isNeumann = true ∧
            (bc.flowCond (g.grid.boundaryId f')).outflux = 0)) ∧
        ¬ ((bc.flowCond (g.grid.boundaryId f0)).isDirichlet = true ∨
          ((bc.flowCond (g.grid.boundaryId f0)).isNeumann = true ∧
            (bc.flowCond (g.grid.boundaryId f0)).outflux = 0)) ∧
        ((bc.flowCond (g.grid.boundaryId f0)).isNeumann = false →
          (solve P L fl sat bc src tol verb typ same self).result =
            .error .unhandledBoundaryCondition) ∧
        ((bc.flowCond (g.grid.boundaryId f0)).isNeumann = true →
          (solve P L fl sat bc src tol verb typ same self).result = .error .nonzeroNeumann)) ∧
      (solve P L fl sat bc src tol verb typ same self).calls = [] ∧
      (solve P L fl sat bc src tol verb typ same self).state = self ∧
      ((∀ f', f' < f →
          (bc.flowCond (g.grid.boundaryId f')).isNeumann = true →
          (bc.flowCond (g.grid.boundaryId f')).outflux = 0) →
        (solve P L fl sat bc src tol verb typ same self).result =
          .error .unhandledBoundaryCondition)) ∧
    (∀ bc' : BCInterface,
      (∀ f, f < g.numberOfFaces →
        bc'.flowCond (g.grid.boundaryId f) = bc.flowCond (g.grid.boundaryId f)) →
      solve P L fl sat bc' src tol verb typ same self =
        solve P L fl sat bc src tol verb typ same self) := by
  refine ⟨?_, fun bc' hagree =>
    solve_congr_bc P L fl sat bc bc' src tol verb typ same self g hg hagree⟩
  intro f hf hP
  have hcases : (faceCond g bc f).isDirichlet = false ∧ (faceCond g bc f).isNeumann = false := by
    unfold faceCond
    cases hc : bc.flowCond (g.grid.boundaryId f) <;>
      simp [hc, FlowBC.isDirichlet, FlowBC.isNeumann, FlowBC.isPeriodic] at hP ⊢
  have hbad : ¬ faceOK g bc f := by
    unfold faceOK
    simp [hcases.1, hcases.2]
  obtain ⟨f0, hle, hbad0, hmin, hs⟩ :=
    solve_of_bad_face P L fl sat bc src tol verb typ same self g hg f hf hbad
  rw [hs]
  refine ⟨⟨f0, hle, hmin, hbad0, ?_, ?_⟩, rfl, rfl, ?_⟩
  · intro hN0
    simp [faceError, faceCond, hN0]
  · intro hN0
    simp [faceError, faceCond, hN0]
  · intro hbefore
    have hN0 : (faceCond g bc f0).isNeumann = false := by
      rcases Nat.eq_or_lt_of_le hle with heq | hlt
      · rw [heq]; exact hcases.2
      · by_contra hne
        have hN : (faceCond g bc f0).isNeumann = true := by simpa using hne
        exact hbad0 (Or.inr ⟨hN, hbefore f0 hlt hN⟩)
    simp [faceError, hN0]

/-- C3 (as stated) fails: with face 0 periodic and face 1 Neumann with outflux 1,
a face with nonzero Neumann flux exists, yet `solve` stops at face 0 with the
unhandled-boundary-condition error, not the nonzero-Neumann error. -/
theorem solve_nonzero_neumann_counterexample :
    (∃ f, f < sampleGrid.numberOfFaces ∧
      (mixedBC.flowCond (sampleGrid.grid.boundaryId f)).isNeumann = true ∧
      (mixedBC.flowCond (sampleGrid.grid.boundaryId f)).outflux ≠ 0) ∧
    (solve sampleSolver (sampleLinsolver true) sampleFluid [1 / 4] mixedBC [7]
      (1 / 100) 1 1 false sampleState).result = .error .unhandledBoundaryCondition ∧
    (solve sampleSolver (sampleLinsolver true) sampleFluid [1 / 4] mixedBC [7]
      (1 / 100) 1 1 false sampleState).result ≠ .error .nonzeroNeumann := by
  refine ⟨⟨1, by decide, rfl, ?_⟩, ?_, ?_⟩
  · simp [mixedBC, sampleGrid, FlowBC.outflux]
  · simp [solve, faceLoop, sampleState, sampleGrid, mixedBC, FlowBC.isDirichlet,
      FlowBC.isNeumann]
  · simp [solve, faceLoop, sampleState, sampleGrid, mixedBC, FlowBC.isDirichlet,
      FlowBC.isNeumann]

/-- Witness for C3 (amended): face 0 is Dirichlet and face 1 is Neumann with
outflux 1; the first face that is rejected is face 1. -/
theorem solve_nonzero_neumann_fails_witness :
    sampleState.pgrid_ = some sampleGrid ∧
    (1 < sampleGrid.numberOfFaces ∧
      (leakyBC.flowCond (sampleGrid.grid.boundaryId 1)).isNeumann = true ∧
      (leakyBC.flowCond (sampleGrid.grid.boundaryId 1)).outflux ≠ 0) ∧
    (leakyBC.flowCond (sampleGrid.grid.boundaryId 0)).isDirichlet = true ∧
    (solve sampleSolver (sampleLinsolver true) sampleFluid [1 / 4] leakyBC [7]
      (1 / 100) 1 1 false sampleState).result = .error .nonzeroNeumann ∧
    (solve sampleSolver (sampleLinsolver true) sampleFluid [1 / 4] leakyBC [7]
      (1 / 100) 1 1 false sampleState).calls = [] :=
  have hq : (leakyBC.flowCond (sampleGrid.grid.boundaryId 1)).outflux ≠ 0 := by
    simp [leakyBC, sampleGrid, FlowBC.outflux]
  have hbefore : ∀ f', f' < 1 →
      (leakyBC.flowCond (sampleGrid.grid.boundaryId f')).isDirichlet = true ∨
      (leakyBC.flowCond (sampleGrid.grid.boundaryId f')).isNeumann = true := by
    intro f' hf'
    interval_cases f'
    exact Or.inl rfl
  have h := solve_nonzero_neumann_fails sampleSolver (sampleLinsolver true) sampleFluid
    [1 / 4] leakyBC [7] (1 / 100) 1 1 false sampleState sampleGrid rfl 1 (by decide) rfl hq
  ⟨rfl, ⟨by decide, rfl, hq⟩, rfl, h.2.2.2 hbefore, h.2.1⟩

/-- C4 (as stated) fails, in two ways.  First, the condition set holds a
periodic condition on boundary id 1, but every face carries id 0 (no-flow), so
`solve` does not fail and calls `assemble`.  Second, with face 0 Neumann with
outflux 1 and face 1 periodic, `solve` fails with the nonzero-Neumann error,
not the unhandled-boundary-condition error. -/
theorem solve_periodic_counterexample :
    ((∃ i, i < unusedPeriodicBC.size ∧ (unusedPeriodicBC.flowCond i).isPeriodic = true) ∧
      (solve sampleSolver (sampleLinsolver true) sampleFluid [1 / 4] unusedPeriodicBC [7]
        (1 / 100) 1 1 false interiorState).result = .ok () ∧
      Call.assemble [7] [1] [850] [.FBC_FLUX, .FBC_FLUX] [0, 0] ∈
        (solve sampleSolver (sampleLinsolver true) sampleFluid [1 / 4] unusedPeriodicBC [7]
          (1 / 100) 1 1 false interiorState).calls) ∧
    ((∃ i, i < fluxFirstBC.size ∧ (fluxFirstBC.flowCond i).isPeriodic = true) ∧
      (fluxFirstBC.flowCond (sampleGrid.grid.boundaryId 1)).isPeriodic = true ∧
      (solve sampleSolver (sampleLinsolver true) sampleFluid [1 / 4] fluxFirstBC [7]
        (1 / 100) 1 1 false sampleState).result = .error .nonzeroNeumann ∧
      (solve sampleSolver (sampleLinsolver true) sampleFluid [1 / 4] fluxFirstBC [7]
        (1 / 100) 1 1 false sampleState).result ≠ .error .unhandledBoundaryCondition) := by
  refine ⟨⟨⟨1, by decide, rfl⟩, ?_, ?_⟩, ⟨⟨1, by decide, rfl⟩, rfl, ?_, ?_⟩⟩
  · simp [solve, faceLoop, interiorState, interiorGrid, unusedPeriodicBC, sampleLinsolver,
      FlowBC.isDirichlet, FlowBC.isNeumann, FlowBC.outflux]
  · norm_num [solve, cellLoop, faceLoop, interiorState, interiorGrid, unusedPeriodicBC,
      sampleFluid, sampleSolver, sampleLinsolver, FlowBC.isDirichlet, FlowBC.isNeumann,
      FlowBC.pressure, FlowBC.outflux]
    exact Or.inl ⟨rfl, rfl⟩
  · simp [solve, faceLoop, sampleState, sampleGrid, fluxFirstBC, FlowBC.isDirichlet,
      FlowBC.isNeumann, FlowBC.outflux]
  · simp [solve, faceLoop, sampleState, sampleGrid, fluxFirstBC, FlowBC.isDirichlet,
      FlowBC.isNeumann, FlowBC.outflux]

/-- Witness for C4 (amended): face 0 is no-flow and face 1 is periodic, so the
first face that is rejected is face 1; and the set with a periodic condition
on an id no face carries gives the same outcome as the all-no-flow set. -/
theorem solve_periodic_face_fails_witness :
    sampleState.pgrid_ = some sampleGrid ∧
    (1 < sampleGrid.numberOfFaces ∧
      (periodicLastBC.flowCond (sampleGrid.grid.boundaryId 1)).isPeriodic = true) ∧
    ((periodicLastBC.flowCond (sampleGrid.grid.boundaryId 0)).isNeumann = true ∧
      (periodicLastBC.flowCond (sampleGrid.grid.boundaryId 0)).outflux = 0) ∧
    (solve sampleSolver (sampleLinsolver true) sampleFluid [1 / 4] periodicLastBC [7]
      (1 / 100) 1 1 false sampleState).result = .error .unhandledBoundaryCondition ∧
    (solve sampleSolver (sampleLinsolver true) sampleFluid [1 / 4] periodicLastBC [7]
      (1 / 100) 1 1 false sampleState).calls = [] ∧
    interiorState.pgrid_ = some interiorGrid ∧
    solve sampleSolver (sampleLinsolver true) sampleFluid [1 / 4] unusedPeriodicBC [7]
        (1 / 100) 1 1 false interiorState =
      solve sampleSolver (sampleLinsolver true) sampleFluid [1 / 4] noflowBC [7]
        (1 / 100) 1 1 false interiorState :=
  have hbefore : ∀ f', f' < 1 →
      (periodicLastBC.flowCond (sampleGrid.grid.boundaryId f')).isNeumann = true →
      (periodicLastBC.flowCond (sampleGrid.grid.boundaryId f')).outflux = 0 := by
    intro f' hf' _
    interval_cases f'
    rfl
  have h := (solve_periodic_face_fails sampleSolver (sampleLinsolver true) sampleFluid
    [1 / 4] periodicLastBC [7] (1 / 100) 1 1 false sampleState sampleGrid rfl).1 1
    (by decide) rfl
  have h2 := (solve_periodic_face_fails sampleSolver (sampleLinsolver true) sampleFluid
    [1 / 4] noflowBC [7] (1 / 100) 1 1 false interiorState interiorGrid rfl).2
    unusedPeriodicBC (fun _ _ => rfl)
  ⟨rfl, ⟨by decide, rfl⟩, ⟨rfl, rfl⟩, h.2.2.2 hbefore, h.2.1, rfl, h2⟩

/-! ## `init` -/

theorem initLoop_eq_true_iff (bc : BCInterface) :
    ∀ (rem i : Nat), initLoop bc rem i = true ↔
      ∃ j, i ≤ j ∧ j < i + rem ∧ (bc.flowCond j).isPeriodic = true := by
  intro rem
  induction rem with
  | zero =>
    intro i
    simp only [initLoop]
    constructor
    · intro h; cases h
    · rintro ⟨j, h1, h2, _⟩; omega
  | succ k ih =>
    intro i
    simp only [initLoop]
    by_cases hp : (bc.flowCond i).isPeriodic = true
    · simp only [hp, if_true, true_iff]
      exact ⟨i, le_refl _, by omega, hp⟩
    · simp only [hp, Bool.false_eq_true, if_false]
      rw [ih (i + 1)]
      constructor
      · rintro ⟨j, h1, h2, h3⟩
        exact ⟨j, by omega, by omega, h3⟩
      · rintro ⟨j, h1, h2, h3⟩
        rcases Nat.eq_or_lt_of_le h1 with heq | hlt
        · subst heq; exact absurd h3 hp
        · exact ⟨j, by omega, by omega, h3⟩

theorem initLoop_congr (bc bc' : BCInterface) :
    ∀ (rem i : Nat),
      (∀ j, i ≤ j → j < i + rem → (bc'.flowCond j).isPeriodic = (bc.flowCond j).isPeriodic) →
      initLoop bc' rem i = initLoop bc rem i := by
  intro rem
  induction rem with
  | zero => intro i _; rfl
  | succ k ih =>
    intro i h
    simp only [initLoop]
    rw [h i (le_refl _) (by omega), ih (i + 1) (fun j h1 h2 => h j (by omega) (by omega))]

/-- C5: `init` fails (with the periodic-conditions error) exactly when
`bc.flowCond(i)` is periodic for some `i` in `[0, bc.size())`, and returns
normally exactly when none is.  When it fails, `psolver_.init` is not called
and the delegate is left as it was; when no condition is periodic,
`psolver_.init` is called exactly once, with the grid, the permeability data
and the gravity vector.  Two condition sets of the same size that agree on which
entries are periodic give the same outcome, whatever their values. -/
theorem init_periodic_check {PS LS : Type} (P : TPFAPressureSolver PS)
    (g : GridInterface) (r : RockInterface) (grav : List ℚ) (bc : BCInterface)
    (self : TpfaInterface PS LS) :
    ((init P g r grav bc self).result = .error .periodicNotHandled ↔
      ∃ i, i < bc.size ∧ (bc.flowCond i).isPeriodic = true) ∧
    ((init P g r grav bc self).result = .ok () ↔
      ¬ ∃ i, i < bc.size ∧ (bc.flowCond i).isPeriodic = true) ∧
    ((∃ i, i < bc.size ∧ (bc.flowCond i).isPeriodic = true) →
      (init P g r grav bc self).calls = [] ∧
      (init P g r grav bc self).state.psolver_ = self.psolver_) ∧
    ((¬ ∃ i, i < bc.size ∧ (bc.flowCond i).isPeriodic = true) →
      (init P g r grav bc self).calls = [Call.psolverInit g.grid r.permeabilityData grav] ∧
      (init P g r grav bc self).state.psolver_ =
        P.init self.psolver_ g.grid r.permeabilityData grav) ∧
    (∀ bc' : BCInterface, bc'.size = bc.size →
      (∀ i, i < bc.size → (bc'.flowCond i).isPeriodic = (bc.flowCond i).isPeriodic) →
      init P g r grav bc' self = init P g r grav bc self) := by
  have hiff : initLoop bc bc.size 0 = true ↔
      ∃ i, i < bc.size ∧ (bc.flowCond i).isPeriodic = true := by
    rw [initLoop_eq_true_iff]
    constructor
    · rintro ⟨j, _, h2, h3⟩; exact ⟨j, by omega, h3⟩
    · rintro ⟨j, h2, h3⟩; exact ⟨j, Nat.zero_le _, by omega, h3⟩
  refine ⟨?_, ?_, ?_, ?_, ?_⟩
  · rw [← hiff]
    unfold init
    by_cases h : initLoop bc bc.size 0 = true <;> simp [h]
  · rw [← hiff]
    unfold init
    by_cases h : initLoop bc bc.size 0 = true <;> simp [h]
  · intro hex
    have h := hiff.mpr hex
    unfold init
    simp [h]
  · intro hno
    have h : ¬ initLoop bc bc.size 0 = true := fun h => hno (hiff.mp h)
    unfold init
    simp [h]
  · intro bc' hsize hagree
    unfold init
    rw [hsize, initLoop_congr bc bc' bc.size 0 (fun j _ h2 => hagree j (by omega))]

/-- Witness for C5: `init` with a condition set whose entry 0 is periodic
fails without calling the delegate; with a set of a Dirichlet and a no-flow
entry it calls the delegate once. -/
theorem init_periodic_check_witness :
    (∃ i, i < mixedBC.size ∧ (mixedBC.flowCond i).isPeriodic = true) ∧
    (init sampleSolver sampleGrid sampleRock [0, 0, 981 / 100] mixedBC sampleState).result =
      .error .periodicNotHandled ∧
    (init sampleSolver sampleGrid sampleRock [0, 0, 981 / 100] mixedBC sampleState).calls = [] ∧
    (¬ ∃ i, i < sampleBC.size ∧ (sampleBC.flowCond i).isPeriodic = true) ∧
    (init sampleSolver sampleGrid sampleRock [0, 0, 981 / 100] sampleBC sampleState).result =
      .ok () ∧
    (init sampleSolver sampleGrid sampleRock [0, 0, 981 / 100] sampleBC sampleState).calls =
      [Call.psolverInit sampleGrid.grid [1, 0, 0, 0, 1, 0, 0, 0, 1] [0, 0, 981 / 100]] :=
  have hex : ∃ i, i < mixedBC.size ∧ (mixedBC.flowCond i).isPeriodic = true :=
    ⟨0, by decide, rfl⟩
  have hno : ¬ ∃ i, i < sampleBC.size ∧ (sampleBC.flowCond i).isPeriodic = true := by
    rintro ⟨i, hi, hp⟩
    have hi' : i < 2 := hi
    interval_cases i <;> simp [sampleBC, FlowBC.isPeriodic] at hp
  have h1 := init_periodic_check sampleSolver sampleGrid sampleRock [0, 0, 981 / 100] mixedBC
    sampleState
  have h2 := init_periodic_check sampleSolver sampleGrid sampleRock [0, 0, 981 / 100] sampleBC
    sampleState
  ⟨hex, h1.1.mpr hex, (h1.2.2.1 hex).1, hno, h2.2.1.mpr hno, (h2.2.2.2.1 hno).1⟩

/-! ## Failure and the flow solution -/

theorem solve_of_null_grid {PS LS : Type} (P : TPFAPressureSolver PS)
    (L : LinearSolverISTL LS) (fl : FluidInterface) (sat : List ℚ) (bc : BCInterface)
    (src : List ℚ) (tol : ℚ) (verb typ : Int) (same : Bool) (self : TpfaInterface PS LS)
    (hg : self.pgrid_ = none) :
    solve P L fl sat bc src tol verb typ same self =
      { result := .error .nullGrid, state := self, calls := [], notices := solveNotices same } := by
  simp only [solve, hg, solveNotices]

/-- C6: whenever the linear solver reports `converged = false`, `solve` fails
with the divergence error carrying the reported iteration count and residual
reduction, and the flow solution is what it was before the call; every failing
`solve` call leaves the flow solution unchanged.  The linear solver is reached
whenever every face is Dirichlet or zero-flux Neumann. -/
theorem solve_failure_keeps_solution {PS LS : Type} (P : TPFAPressureSolver PS)
    (L : LinearSolverISTL LS) (fl : FluidInterface) (sat : List ℚ) (bc : BCInterface)
    (src : List ℚ) (tol : ℚ) (verb typ : Int) (same : Bool) (self : TpfaInterface PS LS) :
    (∀ s res,
      Call.linsolverSolve s res ∈ (solve P L fl sat bc src tol verb typ same self).calls →
      res.converged = false →
      (solve P L fl sat bc src tol verb typ same self).result =
        .error (.linearSolverFailed res.iterations res.reduction) ∧
      getSolution (solve P L fl sat bc src tol verb typ same self).state = getSolution self) ∧
    (∀ e, (solve P L fl sat bc src tol verb typ same self).result = .error e →
      getSolution (solve P L fl sat bc src tol verb typ same self).state = getSolution self) ∧
    (∀ g, self.pgrid_ = some g →
      (∀ f, f < g.numberOfFaces →
        (bc.flowCond (g.grid.boundaryId f)).isDirichlet = true ∨
        ((bc.flowCond (g.grid.boundaryId f)).isNeumann = true ∧
          (bc.flowCond (g.grid.boundaryId f)).outflux = 0)) →
      ∃ s res,
        Call.linsolverSolve s res ∈ (solve P L fl sat bc src tol verb typ same self).calls) := by
  cases hg : self.pgrid_ with
  | none =>
    rw [solve_of_null_grid P L fl sat bc src tol verb typ same self hg]
    simp
  | some g =>
    cases hb : solveBoundary g bc with
    | error e =>
      rw [solve_of_boundary_error P L fl sat bc src tol verb typ same self g e hg hb]
      refine ⟨by simp, by simp, ?_⟩
      intro g' hg' hall
      have hgg : g' = g := by simpa using hg'.symm
      subst hgg
      obtain ⟨bt, bv, hok, _⟩ := solveBoundary_of_all_ok g' bc hall
      rw [hb] at hok
      cases hok
    | ok r =>
      obtain ⟨bt, bv⟩ := r
      rw [solve_of_boundary_ok P L fl sat bc src tol verb typ same self g bt bv hg hb]
      simp only
      split
      · rename_i hconv
        refine ⟨?_, ?_, ?_⟩
        · intro s res hmem _
          simp at hmem
          obtain ⟨_, hres⟩ := hmem
          subst hres
          exact ⟨rfl, rfl⟩
        · intro e _
          rfl
        · intro _ _ _
          exact ⟨_, _, by simp; exact ⟨rfl, rfl⟩⟩
      · rename_i hconv
        refine ⟨?_, ?_, ?_⟩
        · intro s res hmem hfalse
          simp at hmem
          obtain ⟨_, hres⟩ := hmem
          subst hres
          exact absurd hfalse hconv
        · intro e he
          cases he
        · intro _ _ _
          exact ⟨_, _, by simp; exact ⟨rfl, rfl⟩⟩

/-- C8: the `same_matrix` flag does not change the outcome of `solve`: with the
flag set or not, from any object state and for all other inputs, the result,
the state afterwards (delegate, linear solver, flow solution) and the
collaborator calls are the same; only the printed notice differs. -/
theorem solve_same_matrix_no_effect {PS LS : Type} (P : TPFAPressureSolver PS)
    (L : LinearSolverISTL LS) (fl : FluidInterface) (sat : List ℚ) (bc : BCInterface)
    (src : List ℚ) (tol : ℚ) (verb typ : Int) (self : TpfaInterface PS LS) :
    (solve P L fl sat bc src tol verb typ true self).result =
      (solve P L fl sat bc src tol verb typ false self).result ∧
    (solve P L fl sat bc src tol verb typ true self).state =
      (solve P L fl sat bc src tol verb typ false self).state ∧
    (solve P L fl sat bc src tol verb typ true self).calls =
      (solve P L fl sat bc src tol verb typ false self).calls ∧
    (solve P L fl sat bc src tol verb typ true self).notices =
      ["Requested reuse of preconditioner, not implemented so far."] ∧
    (solve P L fl sat bc src tol verb typ false self).notices = [] := by
  cases hg : self.pgrid_ with
  | none =>
    rw [solve_of_null_grid P L fl sat bc src tol verb typ true self hg,
      solve_of_null_grid P L fl sat bc src tol verb typ false self hg]
    simp [solveNotices]
  | some g =>
    cases hb : solveBoundary g bc with
    | error e =>
      rw [solve_of_boundary_error P L fl sat bc src tol verb typ true self g e hg hb,
        solve_of_boundary_error P L fl sat bc src tol verb typ false self g e hg hb]
      simp [solveNotices]
    | ok r =>
      obtain ⟨bt, bv⟩ := r
      rw [solve_of_boundary_ok P L fl sat bc src tol verb typ true self g bt bv hg hb,
        solve_of_boundary_ok P L fl sat bc src tol verb typ false self g bt bv hg hb]
      simp only
      split <;> simp [solveNotices]

/-! ## The sparse table of outfluxes -/

theorem cumsum_length : ∀ (sizes : List Nat) (a : Nat), (cumsum a sizes).length = sizes.length := by
  intro sizes
  induction sizes with
  | nil => intro a; rfl
  | cons x xs ih => intro a; simp [cumsum, ih]

/-- Entry `c` of the row starts is the sum of the first `c` row sizes. -/
theorem cumsum_get : ∀ (sizes : List Nat) (a c : Nat), c ≤ sizes.length →
    (a :: cumsum a sizes)[c]? = some (a + (sizes.take c).sum) := by
  intro sizes
  induction sizes with
  | nil =>
    intro a c hc
    have h0 : c = 0 := by simpa using hc
    subst h0
    simp
  | cons x xs ih =>
    intro a c hc
    cases c with
    | zero => simp
    | succ c' =>
      have h := ih (a + x) c' (by simpa using hc)
      simp only [cumsum, List.getElem?_cons_succ, List.take_succ_cons, List.sum_cons]
      rw [h, Nat.add_assoc]

theorem take_succ_sum : ∀ (sizes : List Nat) (c k : Nat), sizes[c]? = some k →
    (sizes.take (c + 1)).sum = (sizes.take c).sum + k := by
  intro sizes
  induction sizes with
  | nil => intro c k h; simp at h
  | cons x xs ih =>
    intro c k h
    cases c with
    | zero =>
      simp at h
      simp [h]
    | succ c' =>
      have h' : xs[c']? = some k := by simpa using h
      simp only [List.take_succ_cons, List.sum_cons, ih c' k h']
      omega

theorem take_sum_le : ∀ (sizes : List Nat) (c : Nat), (sizes.take c).sum ≤ sizes.sum := by
  intro sizes
  induction sizes with
  | nil => intro c; simp
  | cons x xs ih =>
    intro c
    cases c with
    | zero => simp
    | succ c' =>
      simp only [List.take_succ_cons, List.sum_cons]
      have := ih c'
      omega

/-- Row `c` of an assigned table is the slice of the flat data that starts at
the sum of the earlier row sizes and has the row's size. -/
theorem SparseTable.row_assign (t : SparseTable) (data : List ℚ) (sizes : List Nat)
    (c k : Nat) (hk : sizes[c]? = some k) :
    (t.assign data sizes).row c = some ((data.drop (sizes.take c).sum).take k) := by
  have hc : c < sizes.length := by
    by_contra h
    rw [List.getElem?_eq_none (by omega)] at hk
    cases hk
  have h1 := cumsum_get sizes 0 c (by omega)
  have h2 := cumsum_get sizes 0 (c + 1) (by omega)
  rw [take_succ_sum sizes c k hk] at h2
  simp only [SparseTable.row, SparseTable.assign, h1, h2]
  simp

theorem SparseTable.rowSize_assign (t : SparseTable) (data : List ℚ) (sizes : List Nat)
    (c k : Nat) (hk : sizes[c]? = some k) :
    (t.assign data sizes).rowSize c = some k := by
  have hc : c < sizes.length := by
    by_contra h
    rw [List.getElem?_eq_none (by omega)] at hk
    cases hk
  have h1 := cumsum_get sizes 0 c (by omega)
  have h2 := cumsum_get sizes 0 (c + 1) (by omega)
  rw [take_succ_sum sizes c k hk] at h2
  simp only [SparseTable.rowSize, SparseTable.assign, h1, h2]
  simp

theorem SparseTable.size_assign (t : SparseTable) (data : List ℚ) (sizes : List Nat) :
    (t.assign data sizes).size = sizes.length := by
  simp [SparseTable.size, SparseTable.assign, cumsum_length]

/-- After a successful `solve` the flow solution holds the delegate's recovered
pressures and the table assigned from the flat cell fluxes and the per-cell
face counts, all read from the delegate state the instance ends in. -/
theorem solve_ok_flow_solution {PS LS : Type} (P : TPFAPressureSolver PS)
    (L : LinearSolverISTL LS) (fl : FluidInterface) (sat : List ℚ) (bc : BCInterface)
    (src : List ℚ) (tol : ℚ) (verb typ : Int) (same : Bool) (self : TpfaInterface PS LS)
    (hok : (solve P L fl sat bc src tol verb typ same self).result = .ok ()) :
    (solve P L fl sat bc src tol verb typ same self).state.flow_solution_ =
      { pressure_ := (P.computePressuresAndFluxes
          (solve P L fl sat bc src tol verb typ same self).state.psolver_).1,
        outflux_ := self.flow_solution_.clear.outflux_.assign
          (P.faceFluxToCellFlux (solve P L fl sat bc src tol verb typ same self).state.psolver_
            (P.computePressuresAndFluxes
              (solve P L fl sat bc src tol verb typ same self).state.psolver_).2)
          (P.numCellFaces (solve P L fl sat bc src tol verb typ same self).state.psolver_) } := by
  cases hg : self.pgrid_ with
  | none =>
    rw [solve_of_null_grid P L fl sat bc src tol verb typ same self hg] at hok
    cases hok
  | some g =>
    cases hb : solveBoundary g bc with
    | error e =>
      rw [solve_of_boundary_error P L fl sat bc src tol verb typ same self g e hg hb] at hok
      cases hok
    | ok r =>
      obtain ⟨bt, bv⟩ := r
      rw [solve_of_boundary_ok P L fl sat bc src tol verb typ same self g bt bv hg hb] at hok ⊢
      simp only at hok ⊢
      split at hok
      · cases hok
      · rename_i hconv
        rw [if_neg hconv]

/-- C7: after a successful `solve`, the outflux table has one row per entry of
the delegate's per-cell face counts `ncf`; row `c` has size `ncf[c]`; entry
`l < ncf[c]` of row `c` is the element of the flat per-cell flux array at
position `ncf[0] + ... + ncf[c-1] + l`, which is what `outflux` returns for
cell index `c` and local index `l`; and `pressure` returns element `c` of the
recovered pressure vector.  The list of entries read for row `c` has length
`ncf[c]` as soon as the flat array holds `ncf[0] + ... + ncf[n-1]` fluxes. -/
theorem solve_flow_solution_shape {PS LS : Type} (P : TPFAPressureSolver PS)
    (L : LinearSolverISTL LS) (fl : FluidInterface) (sat : List ℚ) (bc : BCInterface)
    (src : List ℚ) (tol : ℚ) (verb typ : Int) (same : Bool) (self : TpfaInterface PS LS)
    (hok : (solve P L fl sat bc src tol verb typ same self).result = .ok ()) :
    let out := solve P L fl sat bc src tol verb typ same self
    let ncf := P.numCellFaces out.state.psolver_
    let pressures := (P.computePressuresAndFluxes out.state.psolver_).1
    let cell_flux := P.faceFluxToCellFlux out.state.psolver_
      (P.computePressuresAndFluxes out.state.psolver_).2
    (getSolution out.state).outflux_.size = ncf.length ∧
    (∀ c k, ncf[c]? = some k →
      (getSolution out.state).outflux_.rowSize c = some k ∧
      ∃ row, (getSolution out.state).outflux_.row c = some row ∧
        (∀ l, l < k → row[l]? = cell_flux[(ncf.take c).sum + l]?) ∧
        (ncf.sum ≤ cell_flux.length → row.length = k)) ∧
    (∀ c k l, ncf[c]? = some k → l < k →
      (getSolution out.state).outflux c l = cell_flux[(ncf.take c).sum + l]?) ∧
    (∀ c, (getSolution out.state).pressure c = pressures[c]?) := by
  intro out ncf pressures cell_flux
  have hfs := solve_ok_flow_solution P L fl sat bc src tol verb typ same self hok
  have hrow : ∀ c k, ncf[c]? = some k →
      (getSolution out.state).outflux_.row c =
        some ((cell_flux.drop (ncf.take c).sum).take k) := by
    intro c k hk
    show (solve P L fl sat bc src tol verb typ same self).state.flow_solution_.outflux_.row c = _
    rw [hfs]
    exact SparseTable.row_assign self.flow_solution_.clear.outflux_ cell_flux ncf c k hk
  have hentry : ∀ c k l, l < k →
      ((cell_flux.drop (ncf.take c).sum).take k)[l]? = cell_flux[(ncf.take c).sum + l]? := by
    intro c k l hl
    rw [List.getElem?_take_of_lt hl, List.getElem?_drop]
  refine ⟨?_, ?_, ?_, ?_⟩
  · show (solve P L fl sat bc src tol verb typ same self).state.flow_solution_.outflux_.size = _
    rw [hfs]
    exact SparseTable.size_assign self.flow_solution_.clear.outflux_ cell_flux ncf
  · intro c k hk
    refine ⟨?_, _, hrow c k hk, fun l hl => hentry c k l hl, ?_⟩
    · show (solve P L fl sat bc src tol verb typ same self).state.flow_solution_.outflux_.rowSize
        c = _
      rw [hfs]
      exact SparseTable.rowSize_assign self.flow_solution_.clear.outflux_ cell_flux ncf c k hk
    intro hlen
    have h1 := take_succ_sum ncf c k hk
    have h2 := take_sum_le ncf (c + 1)
    simp only [List.length_take, List.length_drop]
    omega
  · intro c k l hk hl
    unfold FlowSolution.outflux
    rw [hrow c k hk]
    exact hentry c k l hl
  · intro c
    show (solve P L fl sat bc src tol verb typ same self).state.flow_solution_.pressure c = _
    rw [hfs]
    rfl

/-! ## Solving twice -/

theorem sample_linsolve_call :
    Call.linsolverSolve { n := 1, nnz := 1, ia := [], ja := [], sa := [], b := [7], x := [] }
        { converged := false, iterations := 3, reduction := 1 / 2 } ∈
      (solve sampleSolver (sampleLinsolver false) sampleFluid [1 / 4] sampleBC [7]
        (1 / 100) 1 1 false priorState).calls := by
  norm_num [solve, cellLoop, faceLoop, priorState, sampleGrid, sampleBC, sampleFluid,
    sampleSolver, sampleLinsolver, FlowBC.isDirichlet, FlowBC.isNeumann, FlowBC.pressure,
    FlowBC.outflux]

theorem sample_solve_ok :
    (solve sampleSolver (sampleLinsolver true) sampleFluid [1 / 4] sampleBC [7]
      (1 / 100) 1 1 false priorState).result = .ok () := by
  simp [solve, faceLoop, priorState, sampleGrid, sampleBC, sampleLinsolver,
    FlowBC.isDirichlet, FlowBC.isNeumann, FlowBC.outflux]

theorem sample_solve_psolver :
    (solve sampleSolver (sampleLinsolver true) sampleFluid [1 / 4] sampleBC [7]
      (1 / 100) 1 1 false priorState).state.psolver_ = ([7], [7]) := by
  simp [solve, faceLoop, priorState, sampleGrid, sampleBC, sampleLinsolver, sampleSolver,
    FlowBC.isDirichlet, FlowBC.isNeumann, FlowBC.outflux]

/-- Witness for C6: the sample linear solver reports `converged = false` after
3 iterations with reduction 1/2; `solve` fails with that error and the flow
solution held before is still there. -/
theorem solve_failure_keeps_solution_witness :
    Call.linsolverSolve { n := 1, nnz := 1, ia := [], ja := [], sa := [], b := [7], x := [] }
        { converged := false, iterations := 3, reduction := 1 / 2 } ∈
      (solve sampleSolver (sampleLinsolver false) sampleFluid [1 / 4] sampleBC [7]
        (1 / 100) 1 1 false priorState).calls ∧
    (solve sampleSolver (sampleLinsolver false) sampleFluid [1 / 4] sampleBC [7]
      (1 / 100) 1 1 false priorState).result = .error (.linearSolverFailed 3 (1 / 2)) ∧
    getSolution (solve sampleSolver (sampleLinsolver false) sampleFluid [1 / 4] sampleBC [7]
      (1 / 100) 1 1 false priorState).state =
      { pressure_ := [3], outflux_ := { data_ := [1, -1], row_start_ := [0, 2] } } :=
  have h := (solve_failure_keeps_solution sampleSolver (sampleLinsolver false) sampleFluid
    [1 / 4] sampleBC [7] (1 / 100) 1 1 false priorState).1 _ _ sample_linsolve_call rfl
  ⟨sample_linsolve_call, h.1, h.2⟩

/-- Witness for C7: on the sample instance the solve succeeds, the delegate
reports one cell with two faces, and the table holds the fluxes 7 and -7. -/
theorem solve_flow_solution_shape_witness :
    (solve sampleSolver (sampleLinsolver true) sampleFluid [1 / 4] sampleBC [7]
      (1 / 100) 1 1 false priorState).result = .ok () ∧
    (getSolution (solve sampleSolver (sampleLinsolver true) sampleFluid [1 / 4] sampleBC [7]
      (1 / 100) 1 1 false priorState).state).outflux_.size = 1 ∧
    (getSolution (solve sampleSolver (sampleLinsolver true) sampleFluid [1 / 4] sampleBC [7]
      (1 / 100) 1 1 false priorState).state).outflux_.rowSize 0 = some 2 ∧
    (∃ row, (getSolution (solve sampleSolver (sampleLinsolver true) sampleFluid [1 / 4]
        sampleBC [7] (1 / 100) 1 1 false priorState).state).outflux_.row 0 = some row ∧
      row.length = 2) ∧
    (getSolution (solve sampleSolver (sampleLinsolver true) sampleFluid [1 / 4] sampleBC [7]
      (1 / 100) 1 1 false priorState).state).outflux 0 1 = some (-7) ∧
    (getSolution (solve sampleSolver (sampleLinsolver true) sampleFluid [1 / 4] sampleBC [7]
      (1 / 100) 1 1 false priorState).state).pressure 0 = some 7 := by
  have h := solve_flow_solution_shape sampleSolver (sampleLinsolver true) sampleFluid
    [1 / 4] sampleBC [7] (1 / 100) 1 1 false priorState sample_solve_ok
  simp only [sample_solve_psolver] at h
  have hncf : (sampleSolver.numCellFaces ([7], [7]))[0]? = some 2 := rfl
  obtain ⟨h1, h2, h3, h4⟩ := h
  obtain ⟨hsize, row, hrow, _, hlen⟩ := h2 0 2 hncf
  exact ⟨sample_solve_ok, h1, hsize, ⟨row, hrow, hlen (by decide)⟩,
    h3 0 2 1 hncf (by decide), h4 0⟩

end Dune
